import Mathlib

/-!
Verification development for the natefit body-scan measurement pipeline.

The TypeScript sources are shallowly embedded:
* JavaScript numbers are modelled as `ℚ` where the code performs only
  field operations and comparisons (pose validation, calibration,
  silhouette analysis, confidence scoring), and as `ℝ` where the code
  uses `Math.sqrt` / `Math.log10` / `Math.PI` (ellipse circumference,
  body composition, frame stability).
* `Math.round x` is `⌊x + 1/2⌋` (JavaScript rounds half-up).
* Array access `xs[i]` with its `undefined` check is `List[i]?`.
* Thrown errors become `Option` results.
-/

namespace NateFit

/-- JavaScript `Math.round` on rationals. -/
def jsRound (x : ℚ) : ℤ := ⌊x + 1/2⌋

/-- JavaScript `Math.round` on reals. -/
noncomputable def jsRoundR (x : ℝ) : ℝ := (⌊x + 1/2⌋ : ℤ)

/-- The idiom `Math.round(v * 10) / 10` (round to 0.1). -/
noncomputable def round1R (x : ℝ) : ℝ := ((⌊x * 10 + 1/2⌋ : ℤ) : ℝ) / 10

/-- The idiom `Math.round(v * 100) / 100` (round to 0.01). -/
noncomputable def round2R (x : ℝ) : ℝ := ((⌊x * 100 + 1/2⌋ : ℤ) : ℝ) / 100

/-- The idiom `Math.round(v * 100) / 100` on rationals. -/
def round2Q (x : ℚ) : ℚ := ((⌊x * 100 + 1/2⌋ : ℤ) : ℚ) / 100

/-! ### src/lib/utils/math.ts -/

/-- `ellipseCircumference` from math.ts: Ramanujan's second approximation,
`h = ((a−b)/(a+b))²`, `C = π(a+b)(1 + 3h/(10+√(4−3h)))`. -/
noncomputable def ellipseCircumference (a b : ℝ) : ℝ :=
  let h := ((a - b) * (a - b)) / ((a + b) * (a + b))
  Real.pi * (a + b) * (1 + (3 * h) / (10 + Real.sqrt (4 - 3 * h)))

/-- Closed form of `ellipseCircumference` with the square root cleared of
its inner division (`(a+b)√(4−3h) = √(a²+14ab+b²)` for positive axes);
used only for the monotonicity analysis of claim C4. -/
noncomputable def ellipseAux (b x : ℝ) : ℝ :=
  Real.pi * ((x + b) + 3 * ((x - b) * (x - b))
    / (10 * (x + b) + Real.sqrt (x ^ 2 + 14 * x * b + b ^ 2)))

/-- `lerp` from math.ts. -/
def lerp (a b t : ℚ) : ℚ := a + (b - a) * t

/-- `distance2D` from math.ts. -/
noncomputable def distance2D (x1 y1 x2 y2 : ℝ) : ℝ :=
  Real.sqrt ((x2 - x1) ^ 2 + (y2 - y1) ^ 2)

/-! ### Data model (src/lib/types.ts) -/

inductive Sex
  | male
  | female
deriving DecidableEq, Repr

/-- One BlazePose landmark; coordinates are the detector's normalized values. -/
structure PoseKeypoint where
  x : ℚ
  y : ℚ
  z : ℚ
  visibility : ℚ
deriving DecidableEq, Repr

abbrev PoseKeypoints := List PoseKeypoint

/-! ### src/lib/utils/validation.ts (constants section) -/

namespace POSE_LANDMARKS

def NOSE : ℕ := 0
def LEFT_SHOULDER : ℕ := 11
def RIGHT_SHOULDER : ℕ := 12
def LEFT_ELBOW : ℕ := 13
def RIGHT_ELBOW : ℕ := 14
def LEFT_WRIST : ℕ := 15
def RIGHT_WRIST : ℕ := 16
def LEFT_HIP : ℕ := 23
def RIGHT_HIP : ℕ := 24
def LEFT_KNEE : ℕ := 25
def RIGHT_KNEE : ℕ := 26
def LEFT_ANKLE : ℕ := 27
def RIGHT_ANKLE : ℕ := 28

end POSE_LANDMARKS

def MIN_VISIBILITY : ℚ := 0.5

def STABILITY_THRESHOLD_PX : ℝ := 5

def STABLE_FRAMES_REQUIRED : ℕ := 45

def REQUIRED_FRONT_LANDMARKS : List ℕ :=
  [POSE_LANDMARKS.LEFT_SHOULDER, POSE_LANDMARKS.RIGHT_SHOULDER,
   POSE_LANDMARKS.LEFT_HIP, POSE_LANDMARKS.RIGHT_HIP,
   POSE_LANDMARKS.LEFT_KNEE, POSE_LANDMARKS.RIGHT_KNEE,
   POSE_LANDMARKS.LEFT_ANKLE, POSE_LANDMARKS.RIGHT_ANKLE]

/-- The 14 measurement regions. -/
inductive MeasurementRegion
  | neck
  | shoulders
  | chest
  | left_bicep
  | right_bicep
  | left_forearm
  | right_forearm
  | wrist
  | waist
  | hips
  | left_thigh
  | right_thigh
  | left_calf
  | right_calf
deriving DecidableEq, Repr

/-- `CORRECTION_FACTORS` from validation.ts. -/
noncomputable def CORRECTION_FACTORS : MeasurementRegion → ℝ
  | .neck => 1.02
  | .shoulders => 1.08
  | .chest => 1.05
  | .left_bicep => 1.01
  | .right_bicep => 1.01
  | .left_forearm => 1.01
  | .right_forearm => 1.01
  | .wrist => 1.00
  | .waist => 1.03
  | .hips => 1.04
  | .left_thigh => 1.06
  | .right_thigh => 1.06
  | .left_calf => 1.02
  | .right_calf => 1.02

/-- `REGION_Y_RATIOS` from validation.ts: region, from-landmark, to-landmark,
interpolation fraction (in insertion order, as `Object.entries` yields it). -/
def REGION_Y_RATIOS : List (MeasurementRegion × ℕ × ℕ × ℚ) :=
  [(.neck, POSE_LANDMARKS.NOSE, POSE_LANDMARKS.LEFT_SHOULDER, 0.7),
   (.chest, POSE_LANDMARKS.LEFT_SHOULDER, POSE_LANDMARKS.LEFT_HIP, 0.15),
   (.waist, POSE_LANDMARKS.LEFT_SHOULDER, POSE_LANDMARKS.LEFT_HIP, 0.65),
   (.hips, POSE_LANDMARKS.LEFT_SHOULDER, POSE_LANDMARKS.LEFT_HIP, 0.95)]

/-! ### src/lib/scan/calibrator.ts -/

structure CalibrationData where
  height_cm : ℚ
  weight_kg : ℚ
  age : ℚ
  sex : Sex
  pixels_per_cm : ℚ
  image_width : ℚ
  image_height : ℚ
deriving DecidableEq, Repr

/-- `calibrateFromHeight` from calibrator.ts; the thrown
`Cannot calibrate: missing nose or ankle keypoints` error is `none`. -/
def calibrateFromHeight (keypoints : PoseKeypoints) (imageWidth imageHeight : ℚ)
    (heightCm weightKg age : ℚ) (sex : Sex) : Option CalibrationData :=
  match keypoints[POSE_LANDMARKS.NOSE]?, keypoints[POSE_LANDMARKS.LEFT_ANKLE]?,
      keypoints[POSE_LANDMARKS.RIGHT_ANKLE]? with
  | some nose, some lAnkle, some rAnkle =>
    let headTopY := nose.y * imageHeight - nose.y * imageHeight * 0.1
    let ankleY := ((lAnkle.y + rAnkle.y) / 2) * imageHeight
    let pixelHeight := ankleY - headTopY
    let effectiveHeightCm := heightCm * 0.95
    let pixelsPerCm := pixelHeight / effectiveHeightCm
    some ⟨heightCm, weightKg, age, sex, pixelsPerCm, imageWidth, imageHeight⟩
  | _, _, _ => none

/-- `validateCalibration` from calibrator.ts (advisory only). -/
def validateCalibration (data : CalibrationData) : Bool :=
  ¬(data.pixels_per_cm < 1) ∧ ¬(20 < data.pixels_per_cm)

/-! ### src/lib/scan/pose-validator.ts -/

structure PoseValidation where
  valid : Bool
  issues : List String
  stability : ℚ
deriving DecidableEq, Repr

/-- `validateFrontPose` from pose-validator.ts.  The four checks accumulate
issues in source order; `valid` is `issues.length === 0`. -/
def validateFrontPose (keypoints : PoseKeypoints) (imageWidth imageHeight : ℚ) :
    PoseValidation :=
  let issues1 : List String :=
    if REQUIRED_FRONT_LANDMARKS.any (fun idx =>
        match keypoints[idx]? with
        | none => true
        | some kp => kp.visibility < MIN_VISIBILITY) then
      ["Full body not visible. Step back."]
    else []
  let issues2 := issues1 ++
    (match keypoints[POSE_LANDMARKS.LEFT_SHOULDER]?,
        keypoints[POSE_LANDMARKS.RIGHT_SHOULDER]? with
     | some lShoulder, some rShoulder =>
       let centerX := ((lShoulder.x + rShoulder.x) / 2) * imageWidth
       let midImage := imageWidth / 2
       let offsetFrac := |centerX - midImage| / imageWidth
       if 0.15 < offsetFrac then ["Move to center of frame."] else []
     | _, _ => [])
  let issues3 := issues2 ++
    (match keypoints[POSE_LANDMARKS.LEFT_ELBOW]?,
        keypoints[POSE_LANDMARKS.LEFT_HIP]?,
        keypoints[POSE_LANDMARKS.LEFT_SHOULDER]? with
     | some lElbow, some lHip, some lShoulder =>
       let elbowToHipDist := |lElbow.x - lHip.x| * imageWidth
       let shoulderToHipDist := |lShoulder.x - lHip.x| * imageWidth
       if elbowToHipDist < shoulderToHipDist * 0.3 then
         ["Move arms away from body."]
       else []
     | _, _, _ => [])
  let issues4 := issues3 ++
    (match keypoints[POSE_LANDMARKS.LEFT_SHOULDER]?,
        keypoints[POSE_LANDMARKS.RIGHT_SHOULDER]? with
     | some lShoulder, some rShoulder =>
       let shoulderWidth := |lShoulder.x - rShoulder.x| * imageWidth
       let hipWidth :=
         match keypoints[POSE_LANDMARKS.LEFT_HIP]?,
             keypoints[POSE_LANDMARKS.RIGHT_HIP]? with
         | some lHip, some rHip => |lHip.x - rHip.x| * imageWidth
         | _, _ => shoulderWidth
       if shoulderWidth < hipWidth * 0.6 then ["Face the camera directly."] else []
     | _, _ => [])
  ⟨issues4.isEmpty, issues4, 0⟩

/-- `validateSidePose` from pose-validator.ts. -/
def validateSidePose (keypoints : PoseKeypoints) (imageWidth imageHeight : ℚ) :
    PoseValidation :=
  let issues1 : List String :=
    match keypoints[POSE_LANDMARKS.NOSE]? with
    | none => ["Face not visible. Turn to the side."]
    | some nose =>
      if nose.visibility < MIN_VISIBILITY then
        ["Face not visible. Turn to the side."]
      else []
  let issues2 := issues1 ++
    (match keypoints[POSE_LANDMARKS.LEFT_SHOULDER]?,
        keypoints[POSE_LANDMARKS.RIGHT_SHOULDER]? with
     | some lShoulder, some rShoulder =>
       let shoulderWidth := |lShoulder.x - rShoulder.x| * imageWidth
       if imageWidth * 0.15 < shoulderWidth then ["Turn more to the side."] else []
     | _, _ => [])
  let issues3 := issues2 ++
    (match keypoints[POSE_LANDMARKS.LEFT_HIP]?,
        keypoints[POSE_LANDMARKS.RIGHT_HIP]? with
     | some lHip, some rHip =>
       let centerX := ((lHip.x + rHip.x) / 2) * imageWidth
       let midImage := imageWidth / 2
       if 0.2 < |centerX - midImage| / imageWidth then
         ["Move to center of frame."]
       else []
     | _, _ => [])
  ⟨issues3.isEmpty, issues3, 0⟩

/-- The landmark pairs `calculateStability` accumulates: index below both
lengths, both entries present, both visibilities at least `MIN_VISIBILITY`. -/
def stabilityPairs (current previous : PoseKeypoints) :
    List (PoseKeypoint × PoseKeypoint) :=
  (List.range (min current.length previous.length)).filterMap fun i =>
    match current[i]?, previous[i]? with
    | some c, some p =>
      if c.visibility < MIN_VISIBILITY ∨ p.visibility < MIN_VISIBILITY then none
      else some (c, p)
    | _, _ => none

/-- `calculateStability` from pose-validator.ts.  The function is total:
when no landmark pair is shared (`count === 0`) it returns 0 before the
average-displacement division. -/
noncomputable def calculateStability (current previous : PoseKeypoints)
    (imageWidth imageHeight : ℚ) : ℝ :=
  let pairs := stabilityPairs current previous
  let totalDist := (pairs.map fun cp =>
    distance2D ((cp.1.x * imageWidth : ℚ) : ℝ) ((cp.1.y * imageHeight : ℚ) : ℝ)
      ((cp.2.x * imageWidth : ℚ) : ℝ) ((cp.2.y * imageHeight : ℚ) : ℝ)).sum
  let count := pairs.length
  if count = 0 then 0
  else
    let avgDist := totalDist / count
    max 0 (1 - avgDist / STABILITY_THRESHOLD_PX)

/-! ### src/lib/scan/silhouette-analyzer.ts -/

structure SilhouetteWidth where
  region : MeasurementRegion
  y_position : ℤ
  left_edge : ℕ
  right_edge : ℕ
  width_pixels : ℤ
deriving DecidableEq, Repr

structure RowWidth where
  y_position : ℤ
  left_edge : ℕ
  right_edge : ℕ
  width_pixels : ℤ
deriving DecidableEq, Repr

/-- The edge-finding loop of `scanRow`: the first component is the first set
pixel in the row (`leftEdge`, set once), the second is the last (`rightEdge`,
overwritten on every hit).  `mask.getD i 0` models `mask[i]` where a read past
the end (`undefined > 0`) counts as unset. -/
def scanRowFold (mask : List ℕ) (rowStart width : ℕ) : Option ℕ × Option ℕ :=
  (List.range width).foldl
    (fun st x =>
      if 0 < mask.getD (rowStart + x) 0 then (some (st.1.getD x), some x) else st)
    (none, none)

/-- `scanRow` from silhouette-analyzer.ts.  The out-of-range guard
`y < 0 || y >= mask.length / width` uses exact (JavaScript float) division,
modelled in `ℚ`. -/
def scanRow (mask : List ℕ) (width : ℕ) (y : ℤ) : Option RowWidth :=
  if y < 0 ∨ (mask.length : ℚ) / (width : ℚ) ≤ (y : ℚ) then none
  else
    let rowStart := y.toNat * width
    match scanRowFold mask rowStart width with
    | (some leftEdge, some rightEdge) =>
      let widthPx : ℤ := (rightEdge : ℤ) - (leftEdge : ℤ)
      if widthPx < 5 then none else some ⟨y, leftEdge, rightEdge, widthPx⟩
    | _ => none

/-- Shared body of the `REGION_Y_RATIOS` loop and `addLimbWidth`: pick two
landmarks, interpolate the scan row, scan it. -/
def regionScan (mask : List ℕ) (maskWidth maskHeight : ℕ) (keypoints : PoseKeypoints)
    (region : MeasurementRegion) (fromIdx toIdx : ℕ) (t : ℚ) :
    Option SilhouetteWidth :=
  match keypoints[fromIdx]?, keypoints[toIdx]? with
  | some fromKp, some toKp =>
    let y := jsRound (lerp (fromKp.y * maskHeight) (toKp.y * maskHeight) t)
    (scanRow mask maskWidth y).map fun w =>
      ⟨region, w.y_position, w.left_edge, w.right_edge, w.width_pixels⟩
  | _, _ => none

/-- The shoulders block of `analyzeSilhouette`: scan at the mean shoulder row. -/
def shoulderScan (mask : List ℕ) (maskWidth maskHeight : ℕ)
    (keypoints : PoseKeypoints) : Option SilhouetteWidth :=
  match keypoints[POSE_LANDMARKS.LEFT_SHOULDER]?,
      keypoints[POSE_LANDMARKS.RIGHT_SHOULDER]? with
  | some lShoulder, some rShoulder =>
    let y := jsRound ((lShoulder.y + rShoulder.y) / 2 * maskHeight)
    (scanRow mask maskWidth y).map fun w =>
      ⟨.shoulders, w.y_position, w.left_edge, w.right_edge, w.width_pixels⟩
  | _, _ => none

/-- The eight `addLimbWidth` calls of `analyzeSilhouette`, in source order. -/
def LIMB_SCANS : List (MeasurementRegion × ℕ × ℕ × ℚ) :=
  [(.left_bicep, POSE_LANDMARKS.LEFT_SHOULDER, POSE_LANDMARKS.LEFT_ELBOW, 0.4),
   (.right_bicep, POSE_LANDMARKS.RIGHT_SHOULDER, POSE_LANDMARKS.RIGHT_ELBOW, 0.4),
   (.left_forearm, POSE_LANDMARKS.LEFT_ELBOW, POSE_LANDMARKS.LEFT_WRIST, 0.4),
   (.right_forearm, POSE_LANDMARKS.RIGHT_ELBOW, POSE_LANDMARKS.RIGHT_WRIST, 0.4),
   (.left_thigh, POSE_LANDMARKS.LEFT_HIP, POSE_LANDMARKS.LEFT_KNEE, 0.35),
   (.right_thigh, POSE_LANDMARKS.RIGHT_HIP, POSE_LANDMARKS.RIGHT_KNEE, 0.35),
   (.left_calf, POSE_LANDMARKS.LEFT_KNEE, POSE_LANDMARKS.LEFT_ANKLE, 0.35),
   (.right_calf, POSE_LANDMARKS.RIGHT_KNEE, POSE_LANDMARKS.RIGHT_ANKLE, 0.35)]

/-- `analyzeSilhouette` from silhouette-analyzer.ts: fixed-ratio regions in
`REGION_Y_RATIOS` order, then shoulders, then the limb scans; entries whose
landmarks are missing or whose row scan fails are skipped. -/
def analyzeSilhouette (mask : List ℕ) (maskWidth maskHeight : ℕ)
    (keypoints : PoseKeypoints) : List SilhouetteWidth :=
  (REGION_Y_RATIOS.filterMap fun rc =>
    regionScan mask maskWidth maskHeight keypoints rc.1 rc.2.1 rc.2.2.1 rc.2.2.2)
  ++ (shoulderScan mask maskWidth maskHeight keypoints).toList
  ++ (LIMB_SCANS.filterMap fun rc =>
    regionScan mask maskWidth maskHeight keypoints rc.1 rc.2.1 rc.2.2.1 rc.2.2.2)

/-- `pixelsToCm` from silhouette-analyzer.ts. -/
def pixelsToCm (widthPixels pixelsPerCm : ℚ) : ℚ := widthPixels / pixelsPerCm

/-! ### src/lib/scan/circumference-calculator.ts -/

structure RegionWidths where
  frontal_cm : ℝ
  sagittal_cm : ℝ

structure CircumferenceResult where
  region : MeasurementRegion
  circumference_cm : ℝ
  frontal_width_cm : ℝ
  sagittal_depth_cm : ℝ
  confidence : ℝ

/-- `calculateCircumference` from circumference-calculator.ts. -/
noncomputable def calculateCircumference (region : MeasurementRegion)
    (widths : RegionWidths) : CircumferenceResult :=
  let a := widths.frontal_cm / 2
  let b := widths.sagittal_cm / 2
  let rawCircumference := ellipseCircumference a b
  let correctionFactor := CORRECTION_FACTORS region
  let circumference := rawCircumference * correctionFactor
  let aspect := min a b / max a b
  let confidence := min 1 (aspect * 1.2)
  ⟨region, round1R circumference, round1R widths.frontal_cm,
   round1R widths.sagittal_cm, round2R confidence⟩

/-! ### src/lib/scan/body-composition.ts -/

/-- JavaScript `Math.log10`. -/
noncomputable def log10 (x : ℝ) : ℝ := Real.log x / Real.log 10

/-- `navyBodyFat` from body-composition.ts. -/
noncomputable def navyBodyFat (sex : Sex) (waist_cm neck_cm hip_cm height_cm : ℝ) :
    ℝ :=
  match sex with
  | .male =>
    let diff := waist_cm - neck_cm
    if diff ≤ 0 then 5
    else 86.010 * log10 diff - 70.041 * log10 height_cm + 36.76
  | .female =>
    let sum := waist_cm + hip_cm - neck_cm
    if sum ≤ 0 then 10
    else 163.205 * log10 sum - 97.684 * log10 height_cm - 78.387

/-- `cunbaeBodyFat` from body-composition.ts. -/
noncomputable def cunbaeBodyFat (bmi age : ℝ) (sex : Sex) : ℝ :=
  let s : ℝ := (if sex = .female then 1 else 0 : ℝ);
  -44.988 + 0.503 * age + 10.689 * s + 3.172 * bmi - 0.026 * bmi * bmi
    + 0.181 * bmi * s - 0.02 * bmi * age - 0.005 * bmi * bmi * s
    + 0.00021 * bmi * bmi * age

/-- `calculateBMI` from body-composition.ts. -/
noncomputable def calculateBMI (height_cm weight_kg : ℝ) : ℝ :=
  let height_m := height_cm / 100
  weight_kg / (height_m * height_m)

structure BodyCompositionResult where
  body_fat_pct : ℝ
  body_fat_navy : ℝ
  body_fat_cunbae : ℝ
  lean_mass_kg : ℝ
  fat_mass_kg : ℝ
  bmi : ℝ
  waist_hip_quotient : ℝ
  -- the source field is named waist_hip_ratio; renamed here only to satisfy
  -- identifier restrictions of this development

/-- The clamp `Math.max(3, Math.min(60, v))` applied to each estimate. -/
noncomputable def clampBodyFat (v : ℝ) : ℝ := max 3 (min 60 v)

/-- `calculateBodyComposition` from body-composition.ts. -/
noncomputable def calculateBodyComposition (sex : Sex)
    (age height_cm weight_kg waist_cm neck_cm hip_cm : ℝ) : BodyCompositionResult :=
  let bmi := calculateBMI height_cm weight_kg
  let navy := navyBodyFat sex waist_cm neck_cm hip_cm height_cm
  let cunbae := cunbaeBodyFat bmi age sex
  let navyClamped := clampBodyFat navy
  let cunbaeClamped := clampBodyFat cunbae
  let bodyFatPct := navyClamped * 0.6 + cunbaeClamped * 0.4
  let fatMassKg := bodyFatPct / 100 * weight_kg
  let leanMassKg := weight_kg - fatMassKg
  let waistHip := waist_cm / hip_cm
  ⟨round1R bodyFatPct, round1R navyClamped, round1R cunbaeClamped,
   round1R leanMassKg, round1R fatMassKg, round1R bmi, round2R waistHip⟩

/-! ### src/lib/scan/confidence-scorer.ts -/

/-- `keypointVisibilityScore` from confidence-scorer.ts. -/
def keypointVisibilityScore (keypoints : PoseKeypoints) : ℚ :=
  if keypoints.length = 0 then 0
  else ((keypoints.filter fun kp => MIN_VISIBILITY ≤ kp.visibility).length : ℚ)
    / (keypoints.length : ℚ)

/-- `calibrationScore` from confidence-scorer.ts; the argument is the
`pixels_per_cm` field, `none` when it is absent (`== null`). -/
def calibrationScore (pixels_per_cm : Option ℚ) : ℚ :=
  match pixels_per_cm with
  | none => 0.5
  | some p =>
    if 3 ≤ p ∧ p ≤ 10 then 1
    else if 2 ≤ p ∧ p ≤ 15 then 0.8
    else 0.5

/-- The weight vector of `scoreScanConfidence`. -/
def confWeights : List ℚ := [0.2, 0.2, 0.15, 0.2, 0.25]

/-- `scoreScanConfidence` from confidence-scorer.ts.  The scorer reads only
the length of `circumferences` and each element's `confidence` field, so the
argument is the list of confidence values.  `scores` never exceeds the five
weights, so the `weights[i] || 0.2` fallback is unreachable and the zip is
exact. -/
def scoreScanConfidence (circumferences : List ℚ)
    (frontKeypoints sideKeypoints : PoseKeypoints)
    (calibration_pixels_per_cm : Option ℚ) : ℚ :=
  let scores : List ℚ :=
    [keypointVisibilityScore frontKeypoints,
     keypointVisibilityScore sideKeypoints,
     calibrationScore calibration_pixels_per_cm,
     min 1 ((circumferences.length : ℚ) / 14)]
    ++ (if circumferences.length = 0 then []
        else [circumferences.sum / (circumferences.length : ℚ)])
  let weighted := (scores.zip confWeights).foldl (fun acc sw => acc + sw.1 * sw.2) 0
  let totalWeight := (scores.zip confWeights).foldl (fun acc sw => acc + sw.2) 0
  round2Q (weighted / totalWeight)

/-! ### src/components/scan/CameraCapture.tsx (per-frame capture loop) -/

inductive CaptureMode
  | front
  | side
deriving DecidableEq, Repr

/-- The mutable state of one `CameraCapture` mount: the `stableFrames`
counter, the `capturedRef` latch, `prevKeypointsRef`, and a count of capture
events fired (`handleCapture` from the auto-capture effect). -/
structure CaptureState where
  stableFrames : ℕ
  captured : Bool
  prevKeypoints : Option PoseKeypoints
  captureEvents : ℕ

def captureInit : CaptureState := ⟨0, false, none, 0⟩

/-- `mode === 'front' ? validateFrontPose : validateSidePose`. -/
def validatePose (mode : CaptureMode) (keypoints : PoseKeypoints)
    (imageWidth imageHeight : ℚ) : PoseValidation :=
  match mode with
  | .front => validateFrontPose keypoints imageWidth imageHeight
  | .side => validateSidePose keypoints imageWidth imageHeight

open Classical in
/-- One frame of the `CameraCapture` loop: the validation effect (validate,
then — only when a previous frame exists and the frame is valid — compare
stability against 0.8 and bump or reset `stableFrames`, then store the frame
as previous), followed by the auto-capture effect (fire `handleCapture` once
when the streak reaches `STABLE_FRAMES_REQUIRED` and the latch is unset). -/
noncomputable def processFrame (mode : CaptureMode) (imageWidth imageHeight : ℚ)
    (s : CaptureState) (keypoints : PoseKeypoints) : CaptureState :=
  let result := validatePose mode keypoints imageWidth imageHeight
  let s1 :=
    match s.prevKeypoints with
    | some prev =>
      if result.valid then
        if (0.8 : ℝ) < calculateStability keypoints prev imageWidth imageHeight then
          { s with stableFrames := s.stableFrames + 1 }
        else
          { s with stableFrames := 0 }
      else s
    | none => s
  let s2 := { s1 with prevKeypoints := some keypoints }
  if STABLE_FRAMES_REQUIRED ≤ s2.stableFrames ∧ s2.captured = false then
    { s2 with captured := true, captureEvents := s2.captureEvents + 1 }
  else s2

/-- Run the capture loop over a sequence of frames. -/
noncomputable def runCapture (mode : CaptureMode) (imageWidth imageHeight : ℚ)
    (s : CaptureState) (frames : List PoseKeypoints) : CaptureState :=
  frames.foldl (processFrame mode imageWidth imageHeight) s

/-- A run of frames each of which is valid and has stability above 0.8
relative to its predecessor (the predecessor of the first is `prev`). -/
def StableRun (mode : CaptureMode) (imageWidth imageHeight : ℚ) :
    PoseKeypoints → List PoseKeypoints → Prop
  | _, [] => True
  | prev, k :: ks =>
    ((validatePose mode k imageWidth imageHeight).valid = true
     ∧ (0.8 : ℝ) < calculateStability k prev imageWidth imageHeight)
    ∧ StableRun mode imageWidth imageHeight k ks

/-! ### src/components/scan/ScanFlow.tsx (state machine) -/

inductive ScanStep
  | intro
  | calibration
  | front_capture
  | front_review
  | side_capture
  | side_review
  | processing
  | results
deriving DecidableEq, Repr

/-- The calibration metadata `handleCalibration` stores
(`Omit<CalibrationData, pixels_per_cm | image_width | image_height>`). -/
structure CalibrationInput where
  height_cm : ℚ
  weight_kg : ℚ
  age : ℚ
  sex : Sex
deriving DecidableEq, Repr

/-- `ScanFlowState` as held by the `ScanFlow` component; images and the
result are abstracted to presence flags. -/
structure ScanFlowState where
  step : ScanStep
  calibration : Option CalibrationInput
  frontImage : Bool
  frontKeypoints : Option PoseKeypoints
  sideImage : Bool
  sideKeypoints : Option PoseKeypoints
  result : Bool
  error : Option String
deriving DecidableEq, Repr

def initialScanFlowState : ScanFlowState :=
  ⟨.intro, none, false, none, false, none, false, none⟩

/-- The user/system events the rendered `ScanFlow` component can fire. -/
inductive ScanEvent
  | startScan
  | calibrationBack
  | calibrationComplete (data : CalibrationInput)
  | frontCaptureBack
  | frontCaptured (keypoints : PoseKeypoints)
  | retakeFront
  | advanceToSide
  | sideCaptureBack
  | sideCaptured (keypoints : PoseKeypoints)
  | retakeSide
  | submitProcess
  | processingFailed (message : String)
  | processingSucceeded
deriving DecidableEq, Repr

/-- Does the event write the `calibration` field (only `handleCalibration`)? -/
def ScanEvent.setsCalibration : ScanEvent → Bool
  | .calibrationComplete _ => true
  | _ => false

/-- The transition function of `ScanFlow`: each arm is a `setState` call
reachable from the UI rendered for the given step.  `none` means the event
cannot fire in that step.  `processingFailed` models both the missing-data
branch of `handleProcess` and a `null` pipeline result: the step stays
`processing` and `error` is populated.  `processingSucceeded` requires the
data `handleProcess` checked before awaiting the pipeline. -/
def scanFlowStep (s : ScanFlowState) (e : ScanEvent) : Option ScanFlowState :=
  match s.step, e with
  | .intro, .startScan => some { s with step := .calibration }
  | .calibration, .calibrationBack => some { s with step := .intro }
  | .calibration, .calibrationComplete d =>
    some { s with calibration := some d, step := .front_capture }
  | .front_capture, .frontCaptureBack => some { s with step := .calibration }
  | .front_capture, .frontCaptured k =>
    some { s with frontImage := true, frontKeypoints := some k, step := .front_review }
  | .front_review, .retakeFront => some { s with step := .front_capture }
  | .front_review, .advanceToSide => some { s with step := .side_capture }
  | .side_capture, .sideCaptureBack => some { s with step := .front_review }
  | .side_capture, .sideCaptured k =>
    some { s with sideImage := true, sideKeypoints := some k, step := .side_review }
  | .side_review, .retakeSide => some { s with step := .side_capture }
  | .side_review, .submitProcess => some { s with step := .processing }
  | .processing, .processingFailed m => some { s with error := some m }
  | .processing, .processingSucceeded =>
    if s.frontImage = true ∧ s.sideImage = true ∧ s.calibration.isSome = true then
      some { s with result := true, step := .results }
    else none
  | _, _ => none

/-! ### Spec reading used for the refinement comparison of claim C7 -/

/-- The spec's reading of the waist scan row: 65% of the way along the
vertical interpolation from the shoulder-midpoint to the hip-midpoint.
Defined only for comparison with the code, which interpolates between the
left-shoulder and left-hip landmarks alone. -/
def waistRowFromMidpoints (keypoints : PoseKeypoints) (maskHeight : ℕ) :
    Option ℤ :=
  match keypoints[POSE_LANDMARKS.LEFT_SHOULDER]?,
      keypoints[POSE_LANDMARKS.RIGHT_SHOULDER]?,
      keypoints[POSE_LANDMARKS.LEFT_HIP]?,
      keypoints[POSE_LANDMARKS.RIGHT_HIP]? with
  | some lS, some rS, some lH, some rH =>
    some (jsRound (lerp (((lS.y + rS.y) / 2) * maskHeight)
      (((lH.y + rH.y) / 2) * maskHeight) 0.65))
  | _, _, _, _ => none

/-! ### Concrete fixtures used by witnesses and counterexamples -/

/-- Keypoints whose nose sits below the ankles (a detector glitch or an
upside-down frame): all three landmarks are present, so calibration
"succeeds". -/
def invertedCalibKps : PoseKeypoints :=
  ⟨0, 1, 0, 1⟩ :: List.replicate 28 ⟨0, 0, 0, 1⟩

/-- Keypoints in the normal orientation: nose near the top, ankles near the
bottom. -/
def uprightCalibKps : PoseKeypoints :=
  ⟨0, 0.1, 0, 1⟩ :: List.replicate 28 ⟨0, 0.9, 0, 1⟩

/-- A 10×10 mask whose row 7 has pixels set in columns 2..8. -/
def silhouetteTestMask : List ℕ :=
  (List.range 100).map fun i =>
    if i / 10 = 7 ∧ 2 ≤ i % 10 ∧ i % 10 ≤ 8 then 1 else 0

/-- Keypoints for the silhouette fixtures: the left shoulder at the top of
the frame, the right shoulder (and everything else) at the bottom, so the
shoulder-midpoint differs from the left shoulder. -/
def silhouetteTestKps : PoseKeypoints :=
  (List.range 25).map fun i =>
    if i = POSE_LANDMARKS.LEFT_SHOULDER then ⟨0, 0, 0, 1⟩ else ⟨0, 1, 0, 1⟩

/-- A single fully-visible keypoint, for the scorer fixtures. -/
def scorerKps : PoseKeypoints := [⟨0, 0, 0, 1⟩]

/-- A keypoint list that passes `validateSidePose` at a 1×1 image: visible
nose, overlapping shoulders, centred hips. -/
def sideValidKps : PoseKeypoints := List.replicate 25 ⟨0.5, 0.5, 0, 1⟩

/-- The same frame with every landmark reported invisible. -/
def sideInvisibleKps : PoseKeypoints := List.replicate 25 ⟨0.5, 0.5, 0, 0⟩

/-- A keypoint list that passes `validateFrontPose` at a 1×1 image:
all required landmarks visible, shoulders centred and wider than 60% of the
hips, and the left elbow held far from the left hip. -/
def goodFrontKps : PoseKeypoints :=
  (List.range 33).map fun i =>
    if i = POSE_LANDMARKS.LEFT_SHOULDER then ⟨0.6, 0.2, 0, 1⟩ else
    if i = POSE_LANDMARKS.RIGHT_SHOULDER then ⟨0.4, 0.2, 0, 1⟩ else
    if i = POSE_LANDMARKS.LEFT_ELBOW then ⟨0.8, 0.35, 0, 1⟩ else
    if i = POSE_LANDMARKS.LEFT_HIP then ⟨0.55, 0.5, 0, 1⟩ else
    if i = POSE_LANDMARKS.RIGHT_HIP then ⟨0.45, 0.5, 0, 1⟩ else
    ⟨0.5, 0.8, 0, 1⟩

/-! ## Theorems -/

/-- C8: in the `ScanFlow` state machine no transition leaves `results`; the
only transition out of `intro` goes to `calibration`; and the only
transition entering `processing` from elsewhere is from `side_review`
(`processingFailed` retains `processing` while populating `error`, which the
spec describes as staying in place rather than a transition into the
state). -/
theorem scanFlow_step_invariants :
    (∀ (s : ScanFlowState) (e : ScanEvent), s.step = ScanStep.results →
      scanFlowStep s e = none) ∧
    (∀ (s : ScanFlowState) (e : ScanEvent) (s' : ScanFlowState),
      s.step = ScanStep.intro → scanFlowStep s e = some s' →
      s'.step = ScanStep.calibration) ∧
    (∀ (s : ScanFlowState) (e : ScanEvent) (s' : ScanFlowState),
      s.step ≠ ScanStep.processing → scanFlowStep s e = some s' →
      s'.step = ScanStep.processing → s.step = ScanStep.side_review) := by
  refine ⟨?_, ?_, ?_⟩
  · intro s e h
    cases e <;> simp [scanFlowStep, h]
  · intro s e s' h hstep
    cases e <;> simp_all [scanFlowStep] <;> (cases hstep; rfl)
  · intro s e s' hne hstep h'
    cases hs : s.step <;> cases e <;> simp_all [scanFlowStep] <;>
      (cases hstep; simp_all)

/-- C8 witness: the invariants applied at concrete states — every event is
refused at `results` (shown for `startScan`), `startScan` moves `intro` to
`calibration`, and `submitProcess` out of `side_review` lands in
`processing`. -/
theorem scanFlow_step_invariants_witness :
    scanFlowStep ⟨.results, none, false, none, false, none, false, none⟩
      .startScan = none ∧
    (⟨.calibration, none, false, none, false, none, false, none⟩ :
      ScanFlowState).step = ScanStep.calibration ∧
    (⟨.side_review, none, false, none, false, none, false, none⟩ :
      ScanFlowState).step = ScanStep.side_review :=
  ⟨scanFlow_step_invariants.1 _ .startScan rfl,
   scanFlow_step_invariants.2.1
     ⟨.intro, none, false, none, false, none, false, none⟩ .startScan _ rfl
     (by decide),
   scanFlow_step_invariants.2.2
     ⟨.side_review, none, false, none, false, none, false, none⟩ .submitProcess
     ⟨.processing, none, false, none, false, none, false, none⟩ (by decide)
     (by decide) rfl⟩

/-- C3 counterexample: `calibrateFromHeight` succeeds (nose and both ankles
present) on a frame whose nose lies below the ankles, yet the returned
`pixels_per_cm` is negative — the code never checks the sign of the pixel
height. -/
theorem calibrateFromHeight_nonpositive_example :
    ∃ c, calibrateFromHeight invertedCalibKps 100 100 175 70 30 .male = some c
      ∧ ¬ 0 < c.pixels_per_cm := by
  have h0 : invertedCalibKps[POSE_LANDMARKS.NOSE]? = some ⟨0, 1, 0, 1⟩ := rfl
  have h27 : invertedCalibKps[POSE_LANDMARKS.LEFT_ANKLE]? =
      some ⟨0, 0, 0, 1⟩ := rfl
  have h28 : invertedCalibKps[POSE_LANDMARKS.RIGHT_ANKLE]? =
      some ⟨0, 0, 0, 1⟩ := rfl
  refine ⟨⟨175, 70, 30, .male,
    ((((0 : ℚ) + 0) / 2) * 100 - ((1 : ℚ) * 100 - 1 * 100 * 0.1)) / (175 * 0.95),
    100, 100⟩, ?_, ?_⟩
  · simp [calibrateFromHeight, h0, h27, h28]
  · norm_num

/-- C3 (amended): when `calibrateFromHeight` succeeds *and* the approximated
head-top pixel row lies above the mean ankle row and the entered height is
positive, the returned `pixels_per_cm` is positive; and in `ScanFlow` every
transition other than the calibration submission leaves the stored
calibration data unchanged. -/
theorem calibration_positive_and_immutable :
    (∀ (keypoints : PoseKeypoints)
      (imageWidth imageHeight heightCm weightKg age : ℚ) (sex : Sex)
      (nose lAnkle rAnkle : PoseKeypoint),
      keypoints[POSE_LANDMARKS.NOSE]? = some nose →
      keypoints[POSE_LANDMARKS.LEFT_ANKLE]? = some lAnkle →
      keypoints[POSE_LANDMARKS.RIGHT_ANKLE]? = some rAnkle →
      nose.y * imageHeight - nose.y * imageHeight * 0.1
        < ((lAnkle.y + rAnkle.y) / 2) * imageHeight →
      0 < heightCm →
      ∃ c, calibrateFromHeight keypoints imageWidth imageHeight heightCm
          weightKg age sex = some c ∧ 0 < c.pixels_per_cm) ∧
    (∀ (s : ScanFlowState) (e : ScanEvent) (s' : ScanFlowState),
      scanFlowStep s e = some s' → e.setsCalibration = false →
      s'.calibration = s.calibration) := by
  constructor
  · intro kps W H heightCm weightKg age sex nose lA rA h0 h27 h28 hgeo hh
    have hc : calibrateFromHeight kps W H heightCm weightKg age sex =
        some ⟨heightCm, weightKg, age, sex,
          (((lA.y + rA.y) / 2) * H - (nose.y * H - nose.y * H * 0.1))
            / (heightCm * 0.95), W, H⟩ := by
      simp [calibrateFromHeight, h0, h27, h28]
    refine ⟨_, hc, ?_⟩
    have h95 : (0 : ℚ) < heightCm * 0.95 := by
      have : (0 : ℚ) < (0.95 : ℚ) := by norm_num
      exact mul_pos hh this
    exact div_pos (by linarith) h95
  · intro s e s' hstep hcal
    cases hs : s.step <;> cases e <;> simp only [scanFlowStep, hs] at hstep <;>
      first
        | exact Option.noConfusion hstep
        | (cases hstep; rfl)
        | (split at hstep <;>
            first
              | exact Option.noConfusion hstep
              | (injection hstep with h2; subst h2; rfl))
        | simp_all [ScanEvent.setsCalibration]

/-- C3 witness: the amended theorem at concrete inputs — an upright frame
calibrates to a positive scale, and the `startScan` transition preserves the
(absent) calibration. -/
theorem calibration_positive_and_immutable_witness :
    (∃ c, calibrateFromHeight uprightCalibKps 100 100 175 70 30 .male = some c
      ∧ 0 < c.pixels_per_cm) ∧
    (⟨.calibration, none, false, none, false, none, false, none⟩ :
        ScanFlowState).calibration =
      (⟨.intro, none, false, none, false, none, false, none⟩ :
        ScanFlowState).calibration :=
  ⟨calibration_positive_and_immutable.1 uprightCalibKps 100 100 175 70 30 .male
    ⟨0, 0.1, 0, 1⟩ ⟨0, 0.9, 0, 1⟩ ⟨0, 0.9, 0, 1⟩ rfl rfl rfl (by norm_num)
    (by norm_num),
   calibration_positive_and_immutable.2
     ⟨.intro, none, false, none, false, none, false, none⟩ .startScan _
     rfl rfl⟩

/-- When the accumulated pair list is empty, `calculateStability` returns 0
via its `count === 0` guard. -/
theorem calculateStability_eq_zero_of_pairs_nil (current previous : PoseKeypoints)
    (imageWidth imageHeight : ℚ)
    (h : stabilityPairs current previous = []) :
    calculateStability current previous imageWidth imageHeight = 0 := by
  rw [calculateStability]
  simp [h]

/-- C9: `calculateStability` is total by construction, and whenever the two
frames share no landmark index at which both entries are present with
visibility at least `MIN_VISIBILITY` (in particular when either list is
empty), the accumulated pair count is zero and the function returns 0
without performing the average-displacement division. -/
theorem calculateStability_zero_when_no_shared_pair
    (current previous : PoseKeypoints) (imageWidth imageHeight : ℚ)
    (h : ∀ (i : ℕ) (c p : PoseKeypoint), current[i]? = some c →
      previous[i]? = some p →
      c.visibility < MIN_VISIBILITY ∨ p.visibility < MIN_VISIBILITY) :
    calculateStability current previous imageWidth imageHeight = 0 := by
  have hpairs : stabilityPairs current previous = [] := by
    rw [stabilityPairs, List.filterMap_eq_nil_iff]
    intro i _
    cases hc : current[i]? <;> cases hp : previous[i]? <;> simp
    intro h1
    rcases h i _ _ hc hp with h' | h'
    · exact absurd h1 (not_le.mpr h')
    · exact h'
  exact calculateStability_eq_zero_of_pairs_nil current previous
    imageWidth imageHeight hpairs

/-- C9 witness: two empty keypoint arrays share no pair and yield
stability 0. -/
theorem calculateStability_zero_when_no_shared_pair_witness :
    calculateStability [] [] 1 1 = 0 :=
  calculateStability_zero_when_no_shared_pair [] [] 1 1
    (fun i c p hc _ => by simp at hc)

/-! ### Row-scan invariants (claims C10 and C7) -/

/-- Invariant of the `scanRow` edge-finding fold: either no pixel was hit, or
the recorded left edge is at most the right edge and both lie inside the row. -/
theorem scanRowFold_go (mask : List ℕ) (rowStart width : ℕ) :
    ∀ (xs : List ℕ) (st : Option ℕ × Option ℕ),
      xs.Pairwise (· < ·) →
      (∀ x ∈ xs, x < width) →
      (st = (none, none) ∨
        ∃ le re, st = (some le, some re) ∧ le ≤ re ∧ re < width ∧
          ∀ x ∈ xs, le ≤ x) →
      ((xs.foldl (fun st x =>
          if 0 < mask.getD (rowStart + x) 0 then (some (st.1.getD x), some x)
          else st) st) = (none, none) ∨
        ∃ le re, (xs.foldl (fun st x =>
          if 0 < mask.getD (rowStart + x) 0 then (some (st.1.getD x), some x)
          else st) st) = (some le, some re) ∧ le ≤ re ∧ re < width) := by
  intro xs
  induction xs with
  | nil =>
    intro st _ _ hst
    rcases hst with h | ⟨le, re, h, h1, h2, _⟩
    · exact Or.inl h
    · exact Or.inr ⟨le, re, h, h1, h2⟩
  | cons x xs ih =>
    intro st hpw hlt hst
    rw [List.foldl_cons]
    have hpw' := (List.pairwise_cons.mp hpw).2
    have hhead := (List.pairwise_cons.mp hpw).1
    have hlt' : ∀ y ∈ xs, y < width := fun y hy => hlt y (List.mem_cons_of_mem _ hy)
    refine ih _ hpw' hlt' ?_
    by_cases hhit : 0 < mask.getD (rowStart + x) 0
    · rw [if_pos hhit]
      rcases hst with h | ⟨le, re, h, h1, _, hall⟩
      · subst h
        refine Or.inr ⟨x, x, rfl, le_refl x, hlt x (List.mem_cons_self x xs), ?_⟩
        exact fun y hy => le_of_lt (hhead y hy)
      · subst h
        refine Or.inr ⟨le, x, rfl, hall x (List.mem_cons_self x xs),
          hlt x (List.mem_cons_self x xs), ?_⟩
        exact fun y hy => hall y (List.mem_cons_of_mem _ hy)
    · rw [if_neg hhit]
      rcases hst with h | ⟨le, re, h, h1, h2, hall⟩
      · exact Or.inl h
      · exact Or.inr ⟨le, re, h, h1, h2, fun y hy => hall y (List.mem_cons_of_mem _ hy)⟩

/-- The edge-finding fold either misses entirely or returns ordered in-row
edges. -/
theorem scanRowFold_spec (mask : List ℕ) (rowStart width : ℕ) :
    scanRowFold mask rowStart width = (none, none) ∨
    ∃ le re, scanRowFold mask rowStart width = (some le, some re) ∧
      le ≤ re ∧ re < width :=
  scanRowFold_go mask rowStart width (List.range width) (none, none)
    (List.pairwise_lt_range width) (fun x hx => List.mem_range.mp hx)
    (Or.inl rfl)

/-- Everything `scanRow` returns satisfies the row invariants: the stored row
is the queried one and lies inside the mask, the edges are ordered and inside
the row, and the width is their difference, at least 5. -/
theorem scanRow_spec (mask : List ℕ) (width : ℕ) (y : ℤ) (w : RowWidth)
    (h : scanRow mask width y = some w) :
    w.y_position = y ∧ 0 ≤ y ∧ (y : ℚ) < (mask.length : ℚ) / (width : ℚ) ∧
    w.left_edge ≤ w.right_edge ∧ w.right_edge < width ∧
    w.width_pixels = (w.right_edge : ℤ) - (w.left_edge : ℤ) ∧
    5 ≤ w.width_pixels := by
  simp only [scanRow] at h
  split at h
  · exact absurd h (by simp)
  · next hguard =>
    push_neg at hguard
    rcases scanRowFold_spec mask (y.toNat * width) width with hf | ⟨le, re, hf, h1, h2⟩
    · rw [hf] at h
      exact absurd h (by simp)
    · rw [hf] at h
      dsimp only at h
      split at h
      · exact absurd h (by simp)
      · next hwide =>
        injection h with h
        subst h
        push_neg at hwide
        exact ⟨rfl, hguard.1, hguard.2, h1, h2, rfl, hwide⟩

/-- Shape of a successful `regionScan`: the landmarks were present, the row is
the rounded interpolation between them, and the row data passed `scanRow`. -/
theorem regionScan_spec (mask : List ℕ) (maskWidth maskHeight : ℕ)
    (keypoints : PoseKeypoints) (region : MeasurementRegion) (fromIdx toIdx : ℕ)
    (t : ℚ) (r : SilhouetteWidth)
    (h : regionScan mask maskWidth maskHeight keypoints region fromIdx toIdx t
      = some r) :
    r.region = region ∧
    ∃ fromKp toKp, keypoints[fromIdx]? = some fromKp ∧
      keypoints[toIdx]? = some toKp ∧
      ∃ w, scanRow mask maskWidth
          (jsRound (lerp (fromKp.y * maskHeight) (toKp.y * maskHeight) t))
          = some w ∧
        r = ⟨region, w.y_position, w.left_edge, w.right_edge, w.width_pixels⟩ := by
  rw [regionScan] at h
  split at h
  · next fromKp toKp hfrom hto =>
    rcases Option.map_eq_some'.mp h with ⟨w, hw, hr⟩
    exact ⟨by rw [← hr], fromKp, toKp, hfrom, hto, w, hw, hr.symm⟩
  · exact absurd h (by simp)

/-- Shape of a successful `shoulderScan`. -/
theorem shoulderScan_spec (mask : List ℕ) (maskWidth maskHeight : ℕ)
    (keypoints : PoseKeypoints) (r : SilhouetteWidth)
    (h : shoulderScan mask maskWidth maskHeight keypoints = some r) :
    r.region = .shoulders ∧
    ∃ w y, scanRow mask maskWidth y = some w ∧
      r = ⟨.shoulders, w.y_position, w.left_edge, w.right_edge, w.width_pixels⟩ := by
  rw [shoulderScan] at h
  split at h
  · next lS rS hl hr' =>
    rcases Option.map_eq_some'.mp h with ⟨w, hw, hr⟩
    exact ⟨by rw [← hr], w, _, hw, hr.symm⟩
  · exact absurd h (by simp)

/-- C10: every `SilhouetteWidth` produced by `analyzeSilhouette` has ordered
edges inside the mask row (`0 ≤ left_edge ≤ right_edge < maskWidth`),
`width_pixels = right_edge − left_edge`, `width_pixels ≥ 5`, and a
non-negative scan row lying inside the mask (`y · width < mask length`);
rows outside the mask or without set pixels are dropped by `scanRow`
(returning `none`) rather than read out of bounds. -/
theorem analyzeSilhouette_width_invariants (mask : List ℕ)
    (maskWidth maskHeight : ℕ) (keypoints : PoseKeypoints) (r : SilhouetteWidth)
    (hmem : r ∈ analyzeSilhouette mask maskWidth maskHeight keypoints) :
    (0 : ℤ) ≤ (r.left_edge : ℤ) ∧ (r.left_edge : ℤ) ≤ (r.right_edge : ℤ) ∧
    (r.right_edge : ℤ) < (maskWidth : ℤ) ∧
    r.width_pixels = (r.right_edge : ℤ) - (r.left_edge : ℤ) ∧
    5 ≤ r.width_pixels ∧ 0 ≤ r.y_position ∧
    (r.y_position : ℚ) < (mask.length : ℚ) / (maskWidth : ℚ) := by
  have main : ∃ w : RowWidth, ∃ y, scanRow mask maskWidth y = some w ∧
      r.y_position = w.y_position ∧ r.left_edge = w.left_edge ∧
      r.right_edge = w.right_edge ∧ r.width_pixels = w.width_pixels := by
    rw [analyzeSilhouette] at hmem
    rcases List.mem_append.mp hmem with hmem' | hlimb
    · rcases List.mem_append.mp hmem' with hfix | hsh
      · rcases List.mem_filterMap.mp hfix with ⟨rc, _, hscan⟩
        rcases regionScan_spec _ _ _ _ _ _ _ _ _ hscan with
          ⟨_, _, _, _, _, w, hw, hr⟩
        exact ⟨w, _, hw, by rw [hr], by rw [hr], by rw [hr], by rw [hr]⟩
      · have hsh' : shoulderScan mask maskWidth maskHeight keypoints = some r := by
          simpa using hsh
        rcases shoulderScan_spec _ _ _ _ _ hsh' with ⟨_, w, y, hw, hr⟩
        exact ⟨w, y, hw, by rw [hr], by rw [hr], by rw [hr], by rw [hr]⟩
    · rcases List.mem_filterMap.mp hlimb with ⟨rc, _, hscan⟩
      rcases regionScan_spec _ _ _ _ _ _ _ _ _ hscan with
        ⟨_, _, _, _, _, w, hw, hr⟩
      exact ⟨w, _, hw, by rw [hr], by rw [hr], by rw [hr], by rw [hr]⟩
  rcases main with ⟨w, y, hw, hy, hl, hr, hwp⟩
  rcases scanRow_spec _ _ _ _ hw with ⟨hy', hy0, hin, h1, h2, h3, h4⟩
  refine ⟨Int.ofNat_nonneg _, ?_, ?_, ?_, ?_, ?_, ?_⟩
  · rw [hl, hr]; exact_mod_cast h1
  · rw [hr]; exact_mod_cast h2
  · rw [hl, hr, hwp]; exact h3
  · rw [hwp]; exact h4
  · rw [hy, hy']; exact hy0
  · rw [hy, hy']; exact hin

theorem silhouetteTestMask_length : silhouetteTestMask.length = 100 := rfl

/-- Full evaluation of `analyzeSilhouette` on the 10×10 fixture: only the
waist row lands on the populated row 7. -/
theorem silhouetteTest_eval :
    analyzeSilhouette silhouetteTestMask 10 10 silhouetteTestKps
      = [⟨.waist, 7, 2, 8, 6⟩] := by
  have h0 : silhouetteTestKps[POSE_LANDMARKS.NOSE]? = some ⟨0, 1, 0, 1⟩ := rfl
  have h11 : silhouetteTestKps[POSE_LANDMARKS.LEFT_SHOULDER]? =
    some ⟨0, 0, 0, 1⟩ := rfl
  have h12 : silhouetteTestKps[POSE_LANDMARKS.RIGHT_SHOULDER]? =
    some ⟨0, 1, 0, 1⟩ := rfl
  have h13 : silhouetteTestKps[POSE_LANDMARKS.LEFT_ELBOW]? =
    some ⟨0, 1, 0, 1⟩ := rfl
  have h14 : silhouetteTestKps[POSE_LANDMARKS.RIGHT_ELBOW]? =
    some ⟨0, 1, 0, 1⟩ := rfl
  have h15 : silhouetteTestKps[POSE_LANDMARKS.LEFT_WRIST]? =
    some ⟨0, 1, 0, 1⟩ := rfl
  have h16 : silhouetteTestKps[POSE_LANDMARKS.RIGHT_WRIST]? =
    some ⟨0, 1, 0, 1⟩ := rfl
  have h23 : silhouetteTestKps[POSE_LANDMARKS.LEFT_HIP]? =
    some ⟨0, 1, 0, 1⟩ := rfl
  have h24 : silhouetteTestKps[POSE_LANDMARKS.RIGHT_HIP]? =
    some ⟨0, 1, 0, 1⟩ := rfl
  have h25 : silhouetteTestKps[POSE_LANDMARKS.LEFT_KNEE]? =
    (none : Option PoseKeypoint) := rfl
  have h26 : silhouetteTestKps[POSE_LANDMARKS.RIGHT_KNEE]? =
    (none : Option PoseKeypoint) := rfl
  -- in-range empty rows
  have hrow2 : scanRow silhouetteTestMask 10 2 = none := by
    simp only [scanRow]
    rw [if_neg (by rw [silhouetteTestMask_length]; push_cast; norm_num)]
    rw [show scanRowFold silhouetteTestMask ((2 : ℤ).toNat * 10) 10
      = (none, none) from by decide]
  have hrow3 : scanRow silhouetteTestMask 10 3 = none := by
    simp only [scanRow]
    rw [if_neg (by rw [silhouetteTestMask_length]; push_cast; norm_num)]
    rw [show scanRowFold silhouetteTestMask ((3 : ℤ).toNat * 10) 10
      = (none, none) from by decide]
  have hrow4 : scanRow silhouetteTestMask 10 4 = none := by
    simp only [scanRow]
    rw [if_neg (by rw [silhouetteTestMask_length]; push_cast; norm_num)]
    rw [show scanRowFold silhouetteTestMask ((4 : ℤ).toNat * 10) 10
      = (none, none) from by decide]
  have hrow5 : scanRow silhouetteTestMask 10 5 = none := by
    simp only [scanRow]
    rw [if_neg (by rw [silhouetteTestMask_length]; push_cast; norm_num)]
    rw [show scanRowFold silhouetteTestMask ((5 : ℤ).toNat * 10) 10
      = (none, none) from by decide]
  -- the populated row
  have hrow7 : scanRow silhouetteTestMask 10 7 = some ⟨7, 2, 8, 6⟩ := by
    simp only [scanRow]
    rw [if_neg (by rw [silhouetteTestMask_length]; push_cast; norm_num)]
    rw [show scanRowFold silhouetteTestMask ((7 : ℤ).toNat * 10) 10
      = (some 2, some 8) from by decide]
    decide
  -- the out-of-range row
  have hrow10 : scanRow silhouetteTestMask 10 10 = none := by
    simp only [scanRow]
    rw [if_pos (Or.inr (by rw [silhouetteTestMask_length]; push_cast; norm_num))]
  -- regions
  have hneck : regionScan silhouetteTestMask 10 10 silhouetteTestKps .neck
      POSE_LANDMARKS.NOSE POSE_LANDMARKS.LEFT_SHOULDER 0.7 = none := by
    simp only [regionScan, h0, h11]
    rw [show jsRound (lerp ((1 : ℚ) * (10 : ℕ)) ((0 : ℚ) * (10 : ℕ)) 0.7) = 3
      from by norm_num [jsRound, lerp], hrow3]
    rfl
  have hchest : regionScan silhouetteTestMask 10 10 silhouetteTestKps .chest
      POSE_LANDMARKS.LEFT_SHOULDER POSE_LANDMARKS.LEFT_HIP 0.15 = none := by
    simp only [regionScan, h11, h23]
    rw [show jsRound (lerp ((0 : ℚ) * (10 : ℕ)) ((1 : ℚ) * (10 : ℕ)) 0.15) = 2
      from by norm_num [jsRound, lerp], hrow2]
    rfl
  have hwaist : regionScan silhouetteTestMask 10 10 silhouetteTestKps .waist
      POSE_LANDMARKS.LEFT_SHOULDER POSE_LANDMARKS.LEFT_HIP 0.65
      = some ⟨.waist, 7, 2, 8, 6⟩ := by
    simp only [regionScan, h11, h23]
    rw [show jsRound (lerp ((0 : ℚ) * (10 : ℕ)) ((1 : ℚ) * (10 : ℕ)) 0.65) = 7
      from by norm_num [jsRound, lerp], hrow7]
    decide
  have hhips : regionScan silhouetteTestMask 10 10 silhouetteTestKps .hips
      POSE_LANDMARKS.LEFT_SHOULDER POSE_LANDMARKS.LEFT_HIP 0.95 = none := by
    simp only [regionScan, h11, h23]
    rw [show jsRound (lerp ((0 : ℚ) * (10 : ℕ)) ((1 : ℚ) * (10 : ℕ)) 0.95) = 10
      from by norm_num [jsRound, lerp], hrow10]
    rfl
  have hsh : shoulderScan silhouetteTestMask 10 10 silhouetteTestKps = none := by
    simp only [shoulderScan, h11, h12]
    rw [show jsRound (((0 : ℚ) + 1) / 2 * (10 : ℕ)) = 5
      from by norm_num [jsRound], hrow5]
    rfl
  have hlb : regionScan silhouetteTestMask 10 10 silhouetteTestKps .left_bicep
      POSE_LANDMARKS.LEFT_SHOULDER POSE_LANDMARKS.LEFT_ELBOW 0.4 = none := by
    simp only [regionScan, h11, h13]
    rw [show jsRound (lerp ((0 : ℚ) * (10 : ℕ)) ((1 : ℚ) * (10 : ℕ)) 0.4) = 4
      from by norm_num [jsRound, lerp], hrow4]
    rfl
  have hrb : regionScan silhouetteTestMask 10 10 silhouetteTestKps .right_bicep
      POSE_LANDMARKS.RIGHT_SHOULDER POSE_LANDMARKS.RIGHT_ELBOW 0.4 = none := by
    simp only [regionScan, h12, h14]
    rw [show jsRound (lerp ((1 : ℚ) * (10 : ℕ)) ((1 : ℚ) * (10 : ℕ)) 0.4) = 10
      from by norm_num [jsRound, lerp], hrow10]
    rfl
  have hlf : regionScan silhouetteTestMask 10 10 silhouetteTestKps .left_forearm
      POSE_LANDMARKS.LEFT_ELBOW POSE_LANDMARKS.LEFT_WRIST 0.4 = none := by
    simp only [regionScan, h13, h15]
    rw [show jsRound (lerp ((1 : ℚ) * (10 : ℕ)) ((1 : ℚ) * (10 : ℕ)) 0.4) = 10
      from by norm_num [jsRound, lerp], hrow10]
    rfl
  have hrf : regionScan silhouetteTestMask 10 10 silhouetteTestKps .right_forearm
      POSE_LANDMARKS.RIGHT_ELBOW POSE_LANDMARKS.RIGHT_WRIST 0.4 = none := by
    simp only [regionScan, h14, h16]
    rw [show jsRound (lerp ((1 : ℚ) * (10 : ℕ)) ((1 : ℚ) * (10 : ℕ)) 0.4) = 10
      from by norm_num [jsRound, lerp], hrow10]
    rfl
  have hlth : regionScan silhouetteTestMask 10 10 silhouetteTestKps .left_thigh
      POSE_LANDMARKS.LEFT_HIP POSE_LANDMARKS.LEFT_KNEE 0.35 = none := by
    simp only [regionScan, h23, h25]
  have hrth : regionScan silhouetteTestMask 10 10 silhouetteTestKps .right_thigh
      POSE_LANDMARKS.RIGHT_HIP POSE_LANDMARKS.RIGHT_KNEE 0.35 = none := by
    simp only [regionScan, h24, h26]
  have hlc : regionScan silhouetteTestMask 10 10 silhouetteTestKps .left_calf
      POSE_LANDMARKS.LEFT_KNEE POSE_LANDMARKS.LEFT_ANKLE 0.35 = none := by
    simp only [regionScan, h25]
  have hrc : regionScan silhouetteTestMask 10 10 silhouetteTestKps .right_calf
      POSE_LANDMARKS.RIGHT_KNEE POSE_LANDMARKS.RIGHT_ANKLE 0.35 = none := by
    simp only [regionScan, h26]
  rw [analyzeSilhouette]
  simp only [REGION_Y_RATIOS, LIMB_SCANS, List.filterMap_cons, List.filterMap_nil,
    hneck, hchest, hwaist, hhips, hsh, hlb, hrb, hlf, hrf, hlth, hrth, hlc, hrc,
    Option.toList_none, List.append_nil, List.nil_append]

/-- C10 witness: the fixture's waist entry is a member of the analyzer
output and satisfies the invariants. -/
theorem analyzeSilhouette_width_invariants_witness :
    (⟨.waist, 7, 2, 8, 6⟩ : SilhouetteWidth)
      ∈ analyzeSilhouette silhouetteTestMask 10 10 silhouetteTestKps ∧
    ((0 : ℤ) ≤ ((2 : ℕ) : ℤ) ∧ ((2 : ℕ) : ℤ) ≤ ((8 : ℕ) : ℤ) ∧
      ((8 : ℕ) : ℤ) < ((10 : ℕ) : ℤ) ∧
      (6 : ℤ) = ((8 : ℕ) : ℤ) - ((2 : ℕ) : ℤ) ∧ (5 : ℤ) ≤ 6 ∧ (0 : ℤ) ≤ 7 ∧
      ((7 : ℤ) : ℚ) < ((silhouetteTestMask.length : ℕ) : ℚ) / ((10 : ℕ) : ℚ)) := by
  have hmem : (⟨.waist, 7, 2, 8, 6⟩ : SilhouetteWidth)
      ∈ analyzeSilhouette silhouetteTestMask 10 10 silhouetteTestKps := by
    rw [silhouetteTest_eval]
    exact List.mem_singleton_self _
  exact ⟨hmem, analyzeSilhouette_width_invariants silhouetteTestMask 10 10
    silhouetteTestKps ⟨.waist, 7, 2, 8, 6⟩ hmem⟩

/-- C7 counterexample: on the fixture the analyzer places the waist row at
row 7 — the 65% interpolation from the *left shoulder* to the *left hip* —
whereas the spec's shoulder-midpoint-to-hip-midpoint interpolation gives
row 8. -/
theorem waist_row_not_midpoint_interpolation :
    analyzeSilhouette silhouetteTestMask 10 10 silhouetteTestKps
      = [⟨.waist, 7, 2, 8, 6⟩] ∧
    waistRowFromMidpoints silhouetteTestKps 10 = some 8 ∧
    (7 : ℤ) ≠ 8 := by
  refine ⟨silhouetteTest_eval, ?_, by decide⟩
  have h11 : silhouetteTestKps[POSE_LANDMARKS.LEFT_SHOULDER]? =
    some ⟨0, 0, 0, 1⟩ := rfl
  have h12 : silhouetteTestKps[POSE_LANDMARKS.RIGHT_SHOULDER]? =
    some ⟨0, 1, 0, 1⟩ := rfl
  have h23 : silhouetteTestKps[POSE_LANDMARKS.LEFT_HIP]? =
    some ⟨0, 1, 0, 1⟩ := rfl
  have h24 : silhouetteTestKps[POSE_LANDMARKS.RIGHT_HIP]? =
    some ⟨0, 1, 0, 1⟩ := rfl
  simp only [waistRowFromMidpoints, h11, h12, h23, h24]
  norm_num [jsRound, lerp]

/-- C7 (amended): in `analyzeSilhouette` the waist entry's scan row is the
rounded 65% interpolation from the *left shoulder* landmark's row to the
*left hip* landmark's row (the code does not form shoulder/hip midpoints for
the fixed-ratio regions). -/
theorem waist_row_from_left_landmarks (mask : List ℕ)
    (maskWidth maskHeight : ℕ) (keypoints : PoseKeypoints) (r : SilhouetteWidth)
    (hmem : r ∈ analyzeSilhouette mask maskWidth maskHeight keypoints)
    (hreg : r.region = .waist) :
    ∃ lS lH, keypoints[POSE_LANDMARKS.LEFT_SHOULDER]? = some lS ∧
      keypoints[POSE_LANDMARKS.LEFT_HIP]? = some lH ∧
      r.y_position = jsRound (lerp (lS.y * maskHeight) (lH.y * maskHeight) 0.65)
      := by
  rw [analyzeSilhouette] at hmem
  rcases List.mem_append.mp hmem with hmem' | hlimb
  · rcases List.mem_append.mp hmem' with hfix | hsh
    · rcases List.mem_filterMap.mp hfix with ⟨rc, hrc, hscan⟩
      simp only [REGION_Y_RATIOS, List.mem_cons, List.not_mem_nil, or_false]
        at hrc
      rcases hrc with rfl | rfl | rfl | rfl <;>
        rcases regionScan_spec _ _ _ _ _ _ _ _ _ hscan with
          ⟨hregion, fromKp, toKp, hfrom, hto, w, hw, hr⟩
      · rw [hregion] at hreg; exact absurd hreg (by simp)
      · rw [hregion] at hreg; exact absurd hreg (by simp)
      · refine ⟨fromKp, toKp, hfrom, hto, ?_⟩
        rw [hr]
        exact (scanRow_spec _ _ _ _ hw).1
      · rw [hregion] at hreg; exact absurd hreg (by simp)
    · have hsh' : shoulderScan mask maskWidth maskHeight keypoints = some r := by
        simpa using hsh
      rcases shoulderScan_spec _ _ _ _ _ hsh' with ⟨hregion, _⟩
      rw [hregion] at hreg
      exact absurd hreg (by simp)
  · rcases List.mem_filterMap.mp hlimb with ⟨rc, hrc, hscan⟩
    simp only [LIMB_SCANS, List.mem_cons, List.not_mem_nil, or_false] at hrc
    rcases hrc with rfl | rfl | rfl | rfl | rfl | rfl | rfl | rfl <;>
      rcases regionScan_spec _ _ _ _ _ _ _ _ _ hscan with ⟨hregion, _⟩ <;>
      (rw [hregion] at hreg; exact absurd hreg (by simp))

/-- C7 witness: the amended row formula at the fixture. -/
theorem waist_row_from_left_landmarks_witness :
    (⟨.waist, 7, 2, 8, 6⟩ : SilhouetteWidth)
      ∈ analyzeSilhouette silhouetteTestMask 10 10 silhouetteTestKps ∧
    (∃ lS lH, silhouetteTestKps[POSE_LANDMARKS.LEFT_SHOULDER]? = some lS ∧
      silhouetteTestKps[POSE_LANDMARKS.LEFT_HIP]? = some lH ∧
      (7 : ℤ) = jsRound (lerp (lS.y * (10 : ℕ)) (lH.y * (10 : ℕ)) 0.65)) := by
  have hmem : (⟨.waist, 7, 2, 8, 6⟩ : SilhouetteWidth)
      ∈ analyzeSilhouette silhouetteTestMask 10 10 silhouetteTestKps := by
    rw [silhouetteTest_eval]
    exact List.mem_singleton_self _
  exact ⟨hmem, waist_row_from_left_landmarks silhouetteTestMask 10 10
    silhouetteTestKps ⟨.waist, 7, 2, 8, 6⟩ hmem rfl⟩

/-! ### Confidence scorer (claim C6) -/

theorem round2Q_mono {x y : ℚ} (h : x ≤ y) : round2Q x ≤ round2Q y := by
  rw [round2Q, round2Q]
  gcongr

theorem sum_le_of_forall2 {l1 l2 : List ℚ} (h : List.Forall₂ (· ≤ ·) l1 l2) :
    l1.sum ≤ l2.sum := by
  induction h with
  | nil => simp
  | cons h _ ih => simp only [List.sum_cons]; exact add_le_add h ih

theorem filter_visible_length_mono {l1 l2 : PoseKeypoints}
    (h : List.Forall₂ (fun a b => a.visibility ≤ b.visibility) l1 l2) :
    (l1.filter fun kp => MIN_VISIBILITY ≤ kp.visibility).length ≤
    (l2.filter fun kp => MIN_VISIBILITY ≤ kp.visibility).length := by
  induction h with
  | nil => simp
  | @cons a b l1' l2' hab htl ih =>
    simp only [List.filter_cons]
    by_cases hp1 : MIN_VISIBILITY ≤ a.visibility
    · have hp2 : MIN_VISIBILITY ≤ b.visibility := le_trans hp1 hab
      rw [if_pos (decide_eq_true hp1), if_pos (decide_eq_true hp2)]
      simpa using ih
    · rw [if_neg (by simpa using hp1)]
      by_cases hp2 : MIN_VISIBILITY ≤ b.visibility
      · rw [if_pos (decide_eq_true hp2)]
        exact le_trans ih (Nat.le_succ _)
      · rw [if_neg (by simpa using hp2)]
        exact ih

theorem keypointVisibilityScore_mono {l1 l2 : PoseKeypoints}
    (h : List.Forall₂ (fun a b => a.visibility ≤ b.visibility) l1 l2) :
    keypointVisibilityScore l1 ≤ keypointVisibilityScore l2 := by
  rw [keypointVisibilityScore, keypointVisibilityScore, h.length_eq]
  by_cases hz : l2.length = 0
  · simp [hz]
  · rw [if_neg hz, if_neg hz]
    gcongr
    exact_mod_cast filter_visible_length_mono h

/-- Monotonicity of the scorer in the visibility and calibration components,
the circumference list held fixed. -/
theorem scoreScanConfidence_mono_comp (confs : List ℚ)
    (f f' s s' : PoseKeypoints) (cal cal' : Option ℚ)
    (h1 : keypointVisibilityScore f' ≤ keypointVisibilityScore f)
    (h2 : keypointVisibilityScore s' ≤ keypointVisibilityScore s)
    (h3 : calibrationScore cal' ≤ calibrationScore cal) :
    scoreScanConfidence confs f' s' cal' ≤ scoreScanConfidence confs f s cal := by
  rw [scoreScanConfidence, scoreScanConfidence]
  by_cases hc : confs.length = 0 <;>
    [simp only [if_pos hc]; simp only [if_neg hc]] <;>
    simp only [confWeights, List.cons_append, List.nil_append, List.append_nil,
      List.zip_cons_cons, List.zip_nil_left, List.foldl_cons, List.foldl_nil] <;>
    (apply round2Q_mono; gcongr)

/-- Monotonicity of the scorer in the per-region confidences, everything
else held fixed. -/
theorem scoreScanConfidence_mono_confs (confs confs' : List ℚ)
    (f s : PoseKeypoints) (cal : Option ℚ)
    (hf2 : List.Forall₂ (· ≤ ·) confs' confs) :
    scoreScanConfidence confs' f s cal ≤ scoreScanConfidence confs f s cal := by
  rw [scoreScanConfidence, scoreScanConfidence, hf2.length_eq]
  by_cases hc : confs.length = 0
  · simp only [if_pos hc]
    exact le_rfl
  · simp only [if_neg hc]
    simp only [confWeights, List.cons_append, List.nil_append,
      List.zip_cons_cons, List.zip_nil_left, List.foldl_cons, List.foldl_nil]
    apply round2Q_mono
    have hn : (0 : ℚ) < (confs.length : ℚ) := by
      exact_mod_cast Nat.pos_of_ne_zero hc
    have hsum : confs'.sum ≤ confs.sum := sum_le_of_forall2 hf2
    gcongr

/-- C6 counterexample: with everything else fixed (one fully-visible
keypoint per view, ideal calibration), dropping the single measured region
whose confidence is 0 *raises* the score from 0.56 to 0.73 — fewer measured
regions are not monotonically worse, because the mean-confidence term
disappears and the weight mass renormalizes. -/
theorem scoreScanConfidence_not_mono_in_regions :
    scoreScanConfidence [0] scorerKps scorerKps (some 5)
      < scoreScanConfidence [] scorerKps scorerKps (some 5) := by
  have hkvs : keypointVisibilityScore scorerKps = 1 := by
    rw [keypointVisibilityScore]
    norm_num [scorerKps, List.filter_cons, MIN_VISIBILITY]
  have hcal : calibrationScore (some 5) = 1 := by norm_num [calibrationScore]
  rw [scoreScanConfidence, scoreScanConfidence, hkvs, hcal]
  norm_num [confWeights, round2Q, min_def]

/-- C6 (amended): `scoreScanConfidence` is monotonically non-increasing when
any single per-region circumference confidence decreases, when any
keypoint's visibility in the front or side view decreases, or when the
calibration-plausibility tier decreases — all other inputs held fixed.
(It is *not* monotone in the number of measured regions; see the
counterexample.) -/
theorem scoreScanConfidence_componentwise_mono :
    (∀ (confs confs' : List ℚ) (f s : PoseKeypoints) (cal : Option ℚ),
      List.Forall₂ (· ≤ ·) confs' confs →
      scoreScanConfidence confs' f s cal ≤ scoreScanConfidence confs f s cal) ∧
    (∀ (confs : List ℚ) (f f' s : PoseKeypoints) (cal : Option ℚ),
      List.Forall₂ (fun a b => a.visibility ≤ b.visibility) f' f →
      scoreScanConfidence confs f' s cal ≤ scoreScanConfidence confs f s cal) ∧
    (∀ (confs : List ℚ) (f s s' : PoseKeypoints) (cal : Option ℚ),
      List.Forall₂ (fun a b => a.visibility ≤ b.visibility) s' s →
      scoreScanConfidence confs f s' cal ≤ scoreScanConfidence confs f s cal) ∧
    (∀ (confs : List ℚ) (f s : PoseKeypoints) (cal cal' : Option ℚ),
      calibrationScore cal' ≤ calibrationScore cal →
      scoreScanConfidence confs f s cal' ≤ scoreScanConfidence confs f s cal) :=
  ⟨fun confs confs' f s cal h =>
    scoreScanConfidence_mono_confs confs confs' f s cal h,
   fun confs f f' s cal h =>
    scoreScanConfidence_mono_comp confs f f' s s cal cal
      (keypointVisibilityScore_mono h) (le_refl _) (le_refl _),
   fun confs f s s' cal h =>
    scoreScanConfidence_mono_comp confs f f s s' cal cal
      (le_refl _) (keypointVisibilityScore_mono h) (le_refl _),
   fun confs f s cal cal' h =>
    scoreScanConfidence_mono_comp confs f f s s cal cal'
      (le_refl _) (le_refl _) h⟩

/-- C6 witness: each monotonicity conjunct applied at concrete inputs — a
lower region confidence, a hidden keypoint in each view, and a calibration
scale outside both plausibility bands. -/
theorem scoreScanConfidence_componentwise_mono_witness :
    scoreScanConfidence [0] scorerKps scorerKps (some 5)
      ≤ scoreScanConfidence [1] scorerKps scorerKps (some 5) ∧
    scoreScanConfidence [1] [⟨0, 0, 0, 0⟩] scorerKps (some 5)
      ≤ scoreScanConfidence [1] scorerKps scorerKps (some 5) ∧
    scoreScanConfidence [1] scorerKps [⟨0, 0, 0, 0⟩] (some 5)
      ≤ scoreScanConfidence [1] scorerKps scorerKps (some 5) ∧
    scoreScanConfidence [1] scorerKps scorerKps (some 20)
      ≤ scoreScanConfidence [1] scorerKps scorerKps (some 5) :=
  ⟨scoreScanConfidence_componentwise_mono.1 [1] [0] scorerKps scorerKps (some 5)
    (by norm_num),
   scoreScanConfidence_componentwise_mono.2.1 [1] scorerKps [⟨0, 0, 0, 0⟩]
    scorerKps (some 5) (by norm_num [scorerKps]),
   scoreScanConfidence_componentwise_mono.2.2.1 [1] scorerKps scorerKps
    [⟨0, 0, 0, 0⟩] (some 5) (by norm_num [scorerKps]),
   scoreScanConfidence_componentwise_mono.2.2.2 [1] scorerKps scorerKps
    (some 5) (some 20) (by norm_num [calibrationScore])⟩

/-! ### Capture loop (claim C2) -/

theorem processFrame_prev (mode : CaptureMode) (imageWidth imageHeight : ℚ)
    (s : CaptureState) (keypoints : PoseKeypoints) :
    (processFrame mode imageWidth imageHeight s keypoints).prevKeypoints
      = some keypoints := by
  simp only [processFrame]
  cases hp : s.prevKeypoints <;> simp only [hp] <;> split_ifs <;> rfl

theorem processFrame_captured_mono (mode : CaptureMode)
    (imageWidth imageHeight : ℚ) (s : CaptureState) (keypoints : PoseKeypoints)
    (h : s.captured = true) :
    (processFrame mode imageWidth imageHeight s keypoints).captured = true := by
  simp only [processFrame]
  cases hp : s.prevKeypoints <;> simp only [hp] <;> split_ifs <;> simp_all

theorem processFrame_events (mode : CaptureMode) (imageWidth imageHeight : ℚ)
    (s : CaptureState) (keypoints : PoseKeypoints)
    (h : s.captureEvents = if s.captured = true then 1 else 0) :
    (processFrame mode imageWidth imageHeight s keypoints).captureEvents
      = if (processFrame mode imageWidth imageHeight s keypoints).captured = true
        then 1 else 0 := by
  simp only [processFrame]
  cases hp : s.prevKeypoints <;> simp only [hp] <;> split_ifs <;> simp_all

theorem runCapture_events (mode : CaptureMode) (imageWidth imageHeight : ℚ) :
    ∀ (frames : List PoseKeypoints) (s : CaptureState),
      s.captureEvents = (if s.captured = true then 1 else 0) →
      (runCapture mode imageWidth imageHeight s frames).captureEvents
        = if (runCapture mode imageWidth imageHeight s frames).captured = true
          then 1 else 0 := by
  intro frames
  induction frames with
  | nil => intro s h; exact h
  | cons k ks ih =>
    intro s h
    rw [runCapture, List.foldl_cons]
    exact ih _ (processFrame_events mode imageWidth imageHeight s k h)

theorem runCapture_captured_mono (mode : CaptureMode)
    (imageWidth imageHeight : ℚ) :
    ∀ (frames : List PoseKeypoints) (s : CaptureState), s.captured = true →
      (runCapture mode imageWidth imageHeight s frames).captured = true := by
  intro frames
  induction frames with
  | nil => intro s h; exact h
  | cons k ks ih =>
    intro s h
    rw [runCapture, List.foldl_cons]
    exact ih _ (processFrame_captured_mono mode imageWidth imageHeight s k h)

/-- A valid frame with stability above 0.8 bumps the streak, stores itself as
the previous frame, keeps the capture latch monotone, and fires the capture
when the streak reaches the threshold. -/
theorem processFrame_stable_step (mode : CaptureMode)
    (imageWidth imageHeight : ℚ) (s : CaptureState) (keypoints p : PoseKeypoints)
    (hprev : s.prevKeypoints = some p)
    (hvalid : (validatePose mode keypoints imageWidth imageHeight).valid = true)
    (hstab : (0.8 : ℝ) < calculateStability keypoints p imageWidth imageHeight) :
    (processFrame mode imageWidth imageHeight s keypoints).stableFrames
      = s.stableFrames + 1 ∧
    (STABLE_FRAMES_REQUIRED ≤ s.stableFrames + 1 →
      (processFrame mode imageWidth imageHeight s keypoints).captured = true) := by
  simp only [processFrame, hprev, hvalid, if_pos hstab]
  split_ifs <;> simp_all

/-- Running a stable run adds its length to the streak, and captures once the
threshold is crossed inside the run. -/
theorem runCapture_stable_run (mode : CaptureMode) (imageWidth imageHeight : ℚ) :
    ∀ (run : List PoseKeypoints) (p : PoseKeypoints) (s : CaptureState),
      s.prevKeypoints = some p →
      StableRun mode imageWidth imageHeight p run →
      (runCapture mode imageWidth imageHeight s run).stableFrames
        = s.stableFrames + run.length ∧
      ((1 ≤ run.length ∧
          STABLE_FRAMES_REQUIRED ≤ s.stableFrames + run.length) →
        (runCapture mode imageWidth imageHeight s run).captured = true) := by
  intro run
  induction run with
  | nil =>
    intro p s hprev _
    refine ⟨by simp [runCapture], ?_⟩
    rintro ⟨h1, -⟩
    exact absurd h1 (by norm_num)
  | cons k ks ih =>
    intro p s hprev hrun
    rcases hrun with ⟨⟨hvalid, hstab⟩, hrun'⟩
    rcases processFrame_stable_step mode imageWidth imageHeight s k p hprev
      hvalid hstab with ⟨hstep, hcap⟩
    have hprev' := processFrame_prev mode imageWidth imageHeight s k
    rw [show runCapture mode imageWidth imageHeight s (k :: ks)
      = runCapture mode imageWidth imageHeight
        (processFrame mode imageWidth imageHeight s k) ks from rfl]
    rcases ih k (processFrame mode imageWidth imageHeight s k) hprev' hrun'
      with ⟨hlen, hcap'⟩
    constructor
    · rw [hlen, hstep, List.length_cons]
      ring
    · rintro ⟨-, hthr⟩
      by_cases hnow : STABLE_FRAMES_REQUIRED ≤ s.stableFrames + 1
      · exact runCapture_captured_mono mode imageWidth imageHeight ks _
          (hcap hnow)
      · have hks : 1 ≤ ks.length := by
          simp only [List.length_cons] at hthr
          omega
        exact hcap' ⟨hks, by rw [hstep]; simp only [List.length_cons] at hthr; omega⟩

theorem distance2D_self (x y : ℝ) : distance2D x y x y = 0 := by
  simp [distance2D]

/-- Every pair accumulated between a frame and itself is diagonal. -/
theorem stabilityPairs_self_diag (k : PoseKeypoints)
    (cp : PoseKeypoint × PoseKeypoint) (h : cp ∈ stabilityPairs k k) :
    cp.1 = cp.2 := by
  rcases List.mem_filterMap.mp h with ⟨i, _, hfi⟩
  cases hki : k[i]? <;> rw [hki] at hfi
  · exact absurd hfi (by simp)
  · dsimp only at hfi
    split at hfi
    · exact absurd hfi (by simp)
    · injection hfi with hfi
      rw [← hfi]

/-- Between a frame and itself, stability is exactly 1 as soon as at least
one landmark pair is accumulated. -/
theorem calculateStability_self (k : PoseKeypoints) (imageWidth imageHeight : ℚ)
    (hne : stabilityPairs k k ≠ []) :
    calculateStability k k imageWidth imageHeight = 1 := by
  rw [calculateStability]
  have hzero : ((stabilityPairs k k).map fun cp =>
      distance2D ((cp.1.x * imageWidth : ℚ) : ℝ) ((cp.1.y * imageHeight : ℚ) : ℝ)
        ((cp.2.x * imageWidth : ℚ) : ℝ)
        ((cp.2.y * imageHeight : ℚ) : ℝ)).sum = 0 := by
    apply List.sum_eq_zero
    intro d hd
    rcases List.mem_map.mp hd with ⟨cp, hcp, hdd⟩
    rw [← hdd, stabilityPairs_self_diag k cp hcp]
    exact distance2D_self _ _
  have hlen : (stabilityPairs k k).length ≠ 0 := by
    simpa [List.length_eq_zero] using hne
  rw [if_neg hlen]
  rw [hzero]
  norm_num [STABILITY_THRESHOLD_PX]

/-- The side-pose fixture passes `validateSidePose`. -/
theorem sideValidKps_valid : (validateSidePose sideValidKps 1 1).valid = true := by
  have h0 : sideValidKps[POSE_LANDMARKS.NOSE]? = some ⟨0.5, 0.5, 0, 1⟩ := rfl
  have h11 : sideValidKps[POSE_LANDMARKS.LEFT_SHOULDER]? =
    some ⟨0.5, 0.5, 0, 1⟩ := rfl
  have h12 : sideValidKps[POSE_LANDMARKS.RIGHT_SHOULDER]? =
    some ⟨0.5, 0.5, 0, 1⟩ := rfl
  have h23 : sideValidKps[POSE_LANDMARKS.LEFT_HIP]? = some ⟨0.5, 0.5, 0, 1⟩ := rfl
  have h24 : sideValidKps[POSE_LANDMARKS.RIGHT_HIP]? = some ⟨0.5, 0.5, 0, 1⟩ := rfl
  rw [validateSidePose]
  norm_num [h0, h11, h12, h23, h24, MIN_VISIBILITY]

/-- The fixture pairs list is nonempty (landmark 0 is visible in both). -/
theorem sideValidKps_pairs_ne_nil : stabilityPairs sideValidKps sideValidKps ≠ [] := by
  have hmem : ((⟨0.5, 0.5, 0, 1⟩, ⟨0.5, 0.5, 0, 1⟩) :
      PoseKeypoint × PoseKeypoint) ∈ stabilityPairs sideValidKps sideValidKps := by
    apply List.mem_filterMap.mpr
    refine ⟨0, ?_, ?_⟩
    · simp [sideValidKps, List.length_replicate]
    · rw [show sideValidKps[(0 : ℕ)]? = some ⟨0.5, 0.5, 0, 1⟩ from rfl]
      norm_num [MIN_VISIBILITY]
  exact List.ne_nil_of_mem hmem

/-- No pair is accumulated against an all-invisible previous frame. -/
theorem sideInvisible_pairs_nil :
    stabilityPairs sideValidKps sideInvisibleKps = [] := by
  rw [stabilityPairs, List.filterMap_eq_nil_iff]
  intro i hi
  have hi' : i < 25 := by
    have := List.mem_range.mp hi
    simpa [sideValidKps, sideInvisibleKps, List.length_replicate] using this
  rw [show sideValidKps[i]? = some ⟨0.5, 0.5, 0, 1⟩ from by
      rw [sideValidKps, List.getElem?_replicate, if_pos hi'],
    show sideInvisibleKps[i]? = some ⟨0.5, 0.5, 0, 0⟩ from by
      rw [sideInvisibleKps, List.getElem?_replicate, if_pos hi']]
  norm_num [MIN_VISIBILITY]

/-- A constant stable frame repeated n times forms a stable run. -/
theorem stableRun_replicate (mode : CaptureMode) (imageWidth imageHeight : ℚ)
    (k : PoseKeypoints)
    (hv : (validatePose mode k imageWidth imageHeight).valid = true)
    (hs : (0.8 : ℝ) < calculateStability k k imageWidth imageHeight) :
    ∀ n, StableRun mode imageWidth imageHeight k (List.replicate n k) := by
  intro n
  induction n with
  | zero => exact trivial
  | succ m ih =>
    rw [List.replicate_succ]
    exact ⟨⟨hv, hs⟩, ih⟩

/-- C2 counterexample: a frame that fails pose validity does *not* reset the
stable-frame streak — the `CameraCapture` effect only recomputes stability
inside `if (prevKeypointsRef.current && result.valid)`, so an invalid frame
leaves `stableFrames` untouched (here at 3) instead of zeroing it. -/
theorem invalid_frame_does_not_reset_streak :
    (validateFrontPose [] 1 1).valid = false ∧
    (processFrame .front 1 1 ⟨3, false, some [], 0⟩ []).stableFrames = 3 := by
  constructor
  · rfl
  · rfl

/-- C2 (amended): in the per-frame capture loop, an invalid frame leaves the
streak unchanged (it neither increments nor resets it); a valid frame whose
stability is ≤ 0.8 (with a previous frame present) resets the streak to 0;
at most one capture event ever fires per capture step; and once a frame is
followed by `STABLE_FRAMES_REQUIRED` consecutive valid frames of stability
above 0.8, exactly one capture event has fired. -/
theorem capture_loop_behavior :
    (∀ (mode : CaptureMode) (imageWidth imageHeight : ℚ) (s : CaptureState)
      (keypoints : PoseKeypoints),
      (validatePose mode keypoints imageWidth imageHeight).valid = false →
      (processFrame mode imageWidth imageHeight s keypoints).stableFrames
        = s.stableFrames) ∧
    (∀ (mode : CaptureMode) (imageWidth imageHeight : ℚ) (s : CaptureState)
      (keypoints p : PoseKeypoints),
      s.prevKeypoints = some p →
      (validatePose mode keypoints imageWidth imageHeight).valid = true →
      calculateStability keypoints p imageWidth imageHeight ≤ (0.8 : ℝ) →
      (processFrame mode imageWidth imageHeight s keypoints).stableFrames = 0) ∧
    (∀ (mode : CaptureMode) (imageWidth imageHeight : ℚ)
      (frames : List PoseKeypoints),
      (runCapture mode imageWidth imageHeight captureInit frames).captureEvents
        ≤ 1) ∧
    (∀ (mode : CaptureMode) (imageWidth imageHeight : ℚ)
      (pre : List PoseKeypoints) (p : PoseKeypoints)
      (run : List PoseKeypoints),
      StableRun mode imageWidth imageHeight p run →
      run.length = STABLE_FRAMES_REQUIRED →
      (runCapture mode imageWidth imageHeight captureInit
        (pre ++ [p] ++ run)).captureEvents = 1) := by
  refine ⟨?_, ?_, ?_, ?_⟩
  · intro mode imageWidth imageHeight s keypoints hinvalid
    simp only [processFrame]
    cases hp : s.prevKeypoints <;> simp only [hp, hinvalid] <;>
      split_ifs <;> simp_all
  · intro mode imageWidth imageHeight s keypoints p hprev hvalid hstab
    simp only [processFrame, hprev, hvalid,
      if_neg (not_lt.mpr hstab)]
    split_ifs <;> simp_all [STABLE_FRAMES_REQUIRED]
  · intro mode imageWidth imageHeight frames
    have h := runCapture_events mode imageWidth imageHeight frames captureInit rfl
    rw [h]
    split_ifs <;> norm_num
  · intro mode imageWidth imageHeight pre p run hrun hlen
    have hsplit : runCapture mode imageWidth imageHeight captureInit
        (pre ++ [p] ++ run)
        = runCapture mode imageWidth imageHeight
          (processFrame mode imageWidth imageHeight
            (runCapture mode imageWidth imageHeight captureInit pre) p) run := by
      simp only [runCapture, List.foldl_append, List.foldl_cons, List.foldl_nil]
    have hprev := processFrame_prev mode imageWidth imageHeight
      (runCapture mode imageWidth imageHeight captureInit pre) p
    have hcap := (runCapture_stable_run mode imageWidth imageHeight run p _
      hprev hrun).2 ⟨by rw [hlen]; norm_num [STABLE_FRAMES_REQUIRED],
        by rw [hlen]; exact Nat.le_add_left _ _⟩
    have hev : (runCapture mode imageWidth imageHeight captureInit
        (pre ++ [p] ++ run)).captureEvents
        = if (runCapture mode imageWidth imageHeight captureInit
            (pre ++ [p] ++ run)).captured = true then 1 else 0 :=
      runCapture_events mode imageWidth imageHeight _ captureInit rfl
    rw [hev, hsplit, hcap]
    rfl

/-- C2 witness: the loop behavior at concrete frames — an empty (invalid)
frame, an all-invisible previous frame (stability 0 ≤ 0.8), an empty trace,
and a run of 45 identical valid side frames after one priming frame. -/
theorem capture_loop_behavior_witness :
    (processFrame .side 1 1 captureInit []).stableFrames
      = captureInit.stableFrames ∧
    (processFrame .side 1 1 ⟨7, false, some sideInvisibleKps, 0⟩
      sideValidKps).stableFrames = 0 ∧
    (runCapture .side 1 1 captureInit []).captureEvents ≤ 1 ∧
    (runCapture .side 1 1 captureInit
      ([] ++ [sideValidKps] ++ List.replicate 45 sideValidKps)).captureEvents
      = 1 := by
  refine ⟨?_, ?_, ?_, ?_⟩
  · exact capture_loop_behavior.1 .side 1 1 captureInit [] rfl
  · exact capture_loop_behavior.2.1 .side 1 1 ⟨7, false, some sideInvisibleKps, 0⟩
      sideValidKps sideInvisibleKps rfl sideValidKps_valid
      (by rw [calculateStability_eq_zero_of_pairs_nil sideValidKps
          sideInvisibleKps 1 1 sideInvisible_pairs_nil]
          norm_num)
  · exact capture_loop_behavior.2.2.1 .side 1 1 []
  · exact capture_loop_behavior.2.2.2 .side 1 1 [] sideValidKps
      (List.replicate 45 sideValidKps)
      (stableRun_replicate .side 1 1 sideValidKps sideValidKps_valid
        (by rw [calculateStability_self sideValidKps 1 1
            sideValidKps_pairs_ne_nil]
            norm_num) 45)
      (by simp [STABLE_FRAMES_REQUIRED])

/-! ### Body composition (claim C5) -/

theorem round1R_mono {x y : ℝ} (h : x ≤ y) : round1R x ≤ round1R y := by
  rw [round1R, round1R]
  gcongr

/-- C5: the returned `body_fat_pct` is the rounded 0.6/0.4 convex
combination of the independently clamped Navy and CUN-BAE estimates; the
unrounded combination lies between the two clamped values, and the returned
(rounded) field lies between the returned clamped fields `body_fat_navy`
and `body_fat_cunbae`. -/
theorem bodyComposition_ensemble_between (sex : Sex)
    (age height_cm weight_kg waist_cm neck_cm hip_cm : ℝ) :
    (calculateBodyComposition sex age height_cm weight_kg waist_cm neck_cm
        hip_cm).body_fat_pct
      = round1R
        (clampBodyFat (navyBodyFat sex waist_cm neck_cm hip_cm height_cm) * 0.6
          + clampBodyFat (cunbaeBodyFat (calculateBMI height_cm weight_kg) age
              sex) * 0.4) ∧
    min (clampBodyFat (navyBodyFat sex waist_cm neck_cm hip_cm height_cm))
        (clampBodyFat (cunbaeBodyFat (calculateBMI height_cm weight_kg) age sex))
      ≤ clampBodyFat (navyBodyFat sex waist_cm neck_cm hip_cm height_cm) * 0.6
          + clampBodyFat (cunbaeBodyFat (calculateBMI height_cm weight_kg) age
              sex) * 0.4 ∧
    clampBodyFat (navyBodyFat sex waist_cm neck_cm hip_cm height_cm) * 0.6
        + clampBodyFat (cunbaeBodyFat (calculateBMI height_cm weight_kg) age
            sex) * 0.4
      ≤ max (clampBodyFat (navyBodyFat sex waist_cm neck_cm hip_cm height_cm))
          (clampBodyFat (cunbaeBodyFat (calculateBMI height_cm weight_kg) age
              sex)) ∧
    min (calculateBodyComposition sex age height_cm weight_kg waist_cm neck_cm
          hip_cm).body_fat_navy
        (calculateBodyComposition sex age height_cm weight_kg waist_cm neck_cm
          hip_cm).body_fat_cunbae
      ≤ (calculateBodyComposition sex age height_cm weight_kg waist_cm neck_cm
          hip_cm).body_fat_pct ∧
    (calculateBodyComposition sex age height_cm weight_kg waist_cm neck_cm
        hip_cm).body_fat_pct
      ≤ max (calculateBodyComposition sex age height_cm weight_kg waist_cm
            neck_cm hip_cm).body_fat_navy
          (calculateBodyComposition sex age height_cm weight_kg waist_cm
            neck_cm hip_cm).body_fat_cunbae := by
  set n := clampBodyFat (navyBodyFat sex waist_cm neck_cm hip_cm height_cm)
    with hn
  set c := clampBodyFat (cunbaeBodyFat (calculateBMI height_cm weight_kg) age
    sex) with hc
  have hpct : (calculateBodyComposition sex age height_cm weight_kg waist_cm
      neck_cm hip_cm).body_fat_pct = round1R (n * 0.6 + c * 0.4) := rfl
  have hnavy : (calculateBodyComposition sex age height_cm weight_kg waist_cm
      neck_cm hip_cm).body_fat_navy = round1R n := rfl
  have hcun : (calculateBodyComposition sex age height_cm weight_kg waist_cm
      neck_cm hip_cm).body_fat_cunbae = round1R c := rfl
  have hlow : min n c ≤ n * 0.6 + c * 0.4 := by
    rcases le_total n c with hnc | hnc
    · rw [min_eq_left hnc]; nlinarith
    · rw [min_eq_right hnc]; nlinarith
  have hhigh : n * 0.6 + c * 0.4 ≤ max n c := by
    rcases le_total n c with hnc | hnc
    · rw [max_eq_right hnc]; nlinarith
    · rw [max_eq_left hnc]; nlinarith
  refine ⟨hpct, hlow, hhigh, ?_, ?_⟩
  · rw [hpct, hnavy, hcun]
    rcases le_total n c with hnc | hnc
    · exact le_trans (min_le_left _ _) (round1R_mono (by nlinarith))
    · exact le_trans (min_le_right _ _) (round1R_mono (by nlinarith))
  · rw [hpct, hnavy, hcun]
    rcases le_total n c with hnc | hnc
    · exact le_trans (round1R_mono (by nlinarith)) (le_max_right _ _)
    · exact le_trans (round1R_mono (by nlinarith)) (le_max_left _ _)

/-! ### Ellipse circumference bounds (claim C1) -/

/-- C1: for positive semi-axes, Ramanujan's approximation lies between the
circumferences of the inscribed and circumscribed circles, and degenerates
to exactly `2πr` for a circle. -/
theorem ellipseCircumference_bounds (a b : ℝ) (ha : 0 < a) (hb : 0 < b) :
    2 * Real.pi * min a b ≤ ellipseCircumference a b ∧
    ellipseCircumference a b ≤ 2 * Real.pi * max a b ∧
    ellipseCircumference a a = 2 * Real.pi * a := by
  have hs : 0 < a + b := by linarith
  have hs2 : 0 < (a + b) * (a + b) := mul_pos hs hs
  set h := ((a - b) * (a - b)) / ((a + b) * (a + b)) with hh
  have hh0 : 0 ≤ h := div_nonneg (mul_self_nonneg _) (le_of_lt hs2)
  have hh1 : h ≤ 1 := by
    rw [hh, div_le_one hs2]
    nlinarith [mul_pos ha hb]
  have hsq1 : 1 ≤ Real.sqrt (4 - 3 * h) := by
    rw [show (1 : ℝ) = Real.sqrt 1 from Real.sqrt_one.symm]
    exact Real.sqrt_le_sqrt (by linarith)
  have hden : (0 : ℝ) < 10 + Real.sqrt (4 - 3 * h) := by linarith
  have ht0 : 0 ≤ 3 * h / (10 + Real.sqrt (4 - 3 * h)) :=
    div_nonneg (by linarith) (le_of_lt hden)
  have ht1 : 3 * h / (10 + Real.sqrt (4 - 3 * h)) ≤ 3 * h / 11 := by
    apply div_le_div_of_nonneg_left (by linarith) (by norm_num)
    linarith
  have heq : ellipseCircumference a b
      = Real.pi * (a + b) * (1 + 3 * h / (10 + Real.sqrt (4 - 3 * h))) := rfl
  have hpis : 0 < Real.pi * (a + b) := mul_pos Real.pi_pos hs
  refine ⟨?_, ?_, ?_⟩
  · rw [heq]
    have h2min : 2 * min a b ≤ a + b := by
      rw [two_mul]
      exact add_le_add (min_le_left a b) (min_le_right a b)
    calc 2 * Real.pi * min a b = Real.pi * (2 * min a b) := by ring
    _ ≤ Real.pi * (a + b) :=
      mul_le_mul_of_nonneg_left h2min (le_of_lt Real.pi_pos)
    _ ≤ Real.pi * (a + b) * (1 + 3 * h / (10 + Real.sqrt (4 - 3 * h))) :=
      le_mul_of_one_le_right (le_of_lt hpis) (by linarith)
  · rw [heq]
    have step1 : Real.pi * (a + b) * (1 + 3 * h / (10 + Real.sqrt (4 - 3 * h)))
        ≤ Real.pi * (a + b) * (1 + 3 * h / 11) :=
      mul_le_mul_of_nonneg_left (by linarith) (le_of_lt hpis)
    refine le_trans step1 ?_
    have hexp : (a + b) * (1 + 3 * h / 11)
        = (a + b) + 3 * ((a - b) * (a - b)) / (11 * (a + b)) := by
      rw [hh]
      field_simp
      ring
    rcases le_total a b with hab | hab
    · rw [max_eq_right hab]
      have key : (a + b) * (1 + 3 * h / 11) ≤ 2 * b := by
        rw [hexp]
        have hdiv : 3 * ((a - b) * (a - b)) / (11 * (a + b)) ≤ b - a := by
          rw [div_le_iff (by positivity)]
          nlinarith [mul_nonneg (sub_nonneg.mpr hab)
            (by linarith : (0 : ℝ) ≤ 14 * a + 8 * b)]
        linarith
      calc Real.pi * (a + b) * (1 + 3 * h / 11)
          = Real.pi * ((a + b) * (1 + 3 * h / 11)) := by ring
      _ ≤ Real.pi * (2 * b) :=
        mul_le_mul_of_nonneg_left key (le_of_lt Real.pi_pos)
      _ = 2 * Real.pi * b := by ring
    · rw [max_eq_left hab]
      have key : (a + b) * (1 + 3 * h / 11) ≤ 2 * a := by
        rw [hexp]
        have hdiv : 3 * ((a - b) * (a - b)) / (11 * (a + b)) ≤ a - b := by
          rw [div_le_iff (by positivity)]
          nlinarith [mul_nonneg (sub_nonneg.mpr hab)
            (by linarith : (0 : ℝ) ≤ 14 * b + 8 * a)]
        linarith
      calc Real.pi * (a + b) * (1 + 3 * h / 11)
          = Real.pi * ((a + b) * (1 + 3 * h / 11)) := by ring
      _ ≤ Real.pi * (2 * a) :=
        mul_le_mul_of_nonneg_left key (le_of_lt Real.pi_pos)
      _ = 2 * Real.pi * a := by ring
  · rw [ellipseCircumference]
    simp only [sub_self, zero_mul, zero_div, mul_zero]
    ring

/-- C1 witness: the bounds at semi-axes 3 and 4. -/
theorem ellipseCircumference_bounds_witness :
    (0 : ℝ) < 3 ∧ (0 : ℝ) < 4 ∧
    (2 * Real.pi * min (3 : ℝ) 4 ≤ ellipseCircumference 3 4 ∧
      ellipseCircumference 3 4 ≤ 2 * Real.pi * max (3 : ℝ) 4 ∧
      ellipseCircumference 3 3 = 2 * Real.pi * 3) :=
  ⟨by norm_num, by norm_num,
   ellipseCircumference_bounds 3 4 (by norm_num) (by norm_num)⟩

/-! ### Circumference monotonicity (claim C4) -/

/-- `ellipseCircumference` is symmetric in its axes. -/
theorem ellipseCircumference_comm (a b : ℝ) :
    ellipseCircumference a b = ellipseCircumference b a := by
  simp only [ellipseCircumference]
  rw [show (a - b) * (a - b) = (b - a) * (b - a) from by ring,
    show (a + b) * (a + b) = (b + a) * (b + a) from by ring,
    show a + b = b + a from by ring]

/-- For positive axes the square root in Ramanujan's formula clears to
`√(a²+14ab+b²)/(a+b)`, giving the `ellipseAux` closed form. -/
theorem ellipseCircumference_eq_aux (a b : ℝ) (ha : 0 < a) (hb : 0 < b) :
    ellipseCircumference a b = ellipseAux b a := by
  have hs : 0 < a + b := by linarith
  have hinner : 0 < a ^ 2 + 14 * a * b + b ^ 2 := by positivity
  have hq : 0 < Real.sqrt (a ^ 2 + 14 * a * b + b ^ 2) := Real.sqrt_pos.mpr hinner
  have h4 : 4 - 3 * (((a - b) * (a - b)) / ((a + b) * (a + b)))
      = (a ^ 2 + 14 * a * b + b ^ 2) / ((a + b) * (a + b)) := by
    field_simp
    ring
  have hsqrt : Real.sqrt (4 - 3 * (((a - b) * (a - b)) / ((a + b) * (a + b))))
      = Real.sqrt (a ^ 2 + 14 * a * b + b ^ 2) / (a + b) := by
    rw [h4, Real.sqrt_div hinner.le, Real.sqrt_mul_self hs.le]
  simp only [ellipseCircumference, ellipseAux]
  rw [hsqrt]
  have hden1 : (10 : ℝ) + Real.sqrt (a ^ 2 + 14 * a * b + b ^ 2) / (a + b) > 0 := by
    positivity
  have hden2 : (10 : ℝ) * (a + b) + Real.sqrt (a ^ 2 + 14 * a * b + b ^ 2) > 0 := by
    positivity
  field_simp
  ring

/-- Positivity of the numerator of the derivative of `ellipseAux`
(after clearing `q = √(a²+14ab+b²)` and the square of the denominator). -/
theorem ellipseAux_deriv_numerator_pos (a b q : ℝ) (ha : 0 < a) (hb : 0 < b)
    (hq : 0 < q) (hqq : q ^ 2 = a ^ 2 + 14 * a * b + b ^ 2) :
    0 < q * (10 * (a + b) + q) ^ 2 + 6 * (a - b) * (10 * (a + b) + q) * q
      - 3 * ((a - b) * (a - b)) * (10 * q + (a + 7 * b)) := by
  have hs : 0 < a + b := by linarith
  have hq1 : a + b ≤ q := by nlinarith [mul_pos ha hb]
  have hCpos : (0 : ℝ) < 11 * (a + b) ^ 2
      + ((a + b) + (a - b)) * (93 * (a + b) - 33 * (a - b)) := by
    nlinarith [mul_pos ha ha, mul_pos ha hb, mul_pos hb hb]
  have hfpos : (0 : ℝ) < 4 * (a + b) ^ 3
      + ((a + b) + (a - b)) * (75 * (a + b) ^ 2
        + 3 * (35 * (a + b) + 3 * (a - b)) * ((a + b) - (a - b))) := by
    nlinarith [mul_pos (mul_pos ha ha) ha, mul_pos (mul_pos ha ha) hb,
      mul_pos (mul_pos ha hb) hb, mul_pos (mul_pos hb hb) hb]
  have hzero : q ^ 2 - (a ^ 2 + 14 * a * b + b ^ 2) = 0 := by rw [hqq]; ring
  have hfact : q * (10 * (a + b) + q) ^ 2 + 6 * (a - b) * (10 * (a + b) + q) * q
      - 3 * ((a - b) * (a - b)) * (10 * q + (a + 7 * b))
      = (q - (a + b)) * (11 * (a + b) ^ 2
          + ((a + b) + (a - b)) * (93 * (a + b) - 33 * (a - b)))
        + (4 * (a + b) ^ 3 + ((a + b) + (a - b)) * (75 * (a + b) ^ 2
          + 3 * (35 * (a + b) + 3 * (a - b)) * ((a + b) - (a - b))))
        + (q ^ 2 - (a ^ 2 + 14 * a * b + b ^ 2))
          * (20 * (a + b) + q + 6 * (a - b)) := by
    ring
  rw [hfact, hzero, zero_mul, add_zero]
  have h1 : 0 ≤ (q - (a + b)) * (11 * (a + b) ^ 2
      + ((a + b) + (a - b)) * (93 * (a + b) - 33 * (a - b))) :=
    mul_nonneg (by linarith) hCpos.le
  linarith

/-- Derivative of `ellipseAux b` at any positive point. -/
theorem ellipseAux_hasDerivAt (b : ℝ) (hb : 0 < b) (a : ℝ) (ha : 0 < a) :
    HasDerivAt (ellipseAux b)
      (Real.pi * (1 +
        (6 * (a - b) * (10 * (a + b) + Real.sqrt (a ^ 2 + 14 * a * b + b ^ 2))
          - 3 * ((a - b) * (a - b)) * (10 + (2 * a + 14 * b)
            / (2 * Real.sqrt (a ^ 2 + 14 * a * b + b ^ 2))))
        / (10 * (a + b) + Real.sqrt (a ^ 2 + 14 * a * b + b ^ 2)) ^ 2)) a := by
  have hinner : 0 < a ^ 2 + 14 * a * b + b ^ 2 := by positivity
  have hq : 0 < Real.sqrt (a ^ 2 + 14 * a * b + b ^ 2) := Real.sqrt_pos.mpr hinner
  have hD : 0 < 10 * (a + b) + Real.sqrt (a ^ 2 + 14 * a * b + b ^ 2) := by
    have := Real.sqrt_nonneg (a ^ 2 + 14 * a * b + b ^ 2)
    nlinarith
  have hfun : (fun x : ℝ => x ^ 2 + 14 * x * b + b ^ 2)
      = fun x : ℝ => x ^ 2 + 14 * b * x + b ^ 2 := by
    funext x
    ring
  have hpow : HasDerivAt (fun x : ℝ => x ^ 2) (2 * a) a := by
    simpa using hasDerivAt_pow 2 a
  have hlin : HasDerivAt (fun x : ℝ => 14 * b * x) (14 * b) a := by
    simpa using (hasDerivAt_id a).const_mul (14 * b)
  have hinner' : HasDerivAt (fun x : ℝ => x ^ 2 + 14 * x * b + b ^ 2)
      (2 * a + 14 * b) a := by
    rw [hfun]
    exact (hpow.add hlin).add_const (b ^ 2)
  have hsqrt : HasDerivAt (fun x : ℝ => Real.sqrt (x ^ 2 + 14 * x * b + b ^ 2))
      ((2 * a + 14 * b) / (2 * Real.sqrt (a ^ 2 + 14 * a * b + b ^ 2))) a :=
    hinner'.sqrt (ne_of_gt hinner)
  have h10 : HasDerivAt (fun x : ℝ => 10 * (x + b)) 10 a := by
    simpa using ((hasDerivAt_id a).add_const b).const_mul (10 : ℝ)
  have hDder : HasDerivAt
      (fun x : ℝ => 10 * (x + b) + Real.sqrt (x ^ 2 + 14 * x * b + b ^ 2))
      (10 + (2 * a + 14 * b) / (2 * Real.sqrt (a ^ 2 + 14 * a * b + b ^ 2))) a :=
    h10.add hsqrt
  have hxb : HasDerivAt (fun x : ℝ => x - b) 1 a := (hasDerivAt_id a).sub_const b
  have hNum : HasDerivAt (fun x : ℝ => 3 * ((x - b) * (x - b)))
      (3 * (1 * (a - b) + (a - b) * 1)) a := (hxb.mul hxb).const_mul 3
  have hfrac : HasDerivAt (fun x : ℝ => 3 * ((x - b) * (x - b))
      / (10 * (x + b) + Real.sqrt (x ^ 2 + 14 * x * b + b ^ 2)))
      ((3 * (1 * (a - b) + (a - b) * 1)
          * (10 * (a + b) + Real.sqrt (a ^ 2 + 14 * a * b + b ^ 2))
        - 3 * ((a - b) * (a - b)) * (10 + (2 * a + 14 * b)
          / (2 * Real.sqrt (a ^ 2 + 14 * a * b + b ^ 2))))
        / (10 * (a + b) + Real.sqrt (a ^ 2 + 14 * a * b + b ^ 2)) ^ 2) a :=
    hNum.div hDder (ne_of_gt hD)
  have hsum : HasDerivAt (fun x : ℝ => (x + b) + 3 * ((x - b) * (x - b))
      / (10 * (x + b) + Real.sqrt (x ^ 2 + 14 * x * b + b ^ 2)))
      (1 + (3 * (1 * (a - b) + (a - b) * 1)
          * (10 * (a + b) + Real.sqrt (a ^ 2 + 14 * a * b + b ^ 2))
        - 3 * ((a - b) * (a - b)) * (10 + (2 * a + 14 * b)
          / (2 * Real.sqrt (a ^ 2 + 14 * a * b + b ^ 2))))
        / (10 * (a + b) + Real.sqrt (a ^ 2 + 14 * a * b + b ^ 2)) ^ 2) a :=
    ((hasDerivAt_id a).add_const b).add hfrac
  have hfinal := hsum.const_mul Real.pi
  rw [show ellipseAux b = fun x : ℝ => Real.pi * ((x + b) + 3 * ((x - b) * (x - b))
    / (10 * (x + b) + Real.sqrt (x ^ 2 + 14 * x * b + b ^ 2))) from rfl]
  convert hfinal using 1
  ring

/-- The derivative of `ellipseAux b` is positive at every positive point. -/
theorem ellipseAux_deriv_pos (a b : ℝ) (ha : 0 < a) (hb : 0 < b) :
    0 < Real.pi * (1 +
      (6 * (a - b) * (10 * (a + b) + Real.sqrt (a ^ 2 + 14 * a * b + b ^ 2))
        - 3 * ((a - b) * (a - b)) * (10 + (2 * a + 14 * b)
          / (2 * Real.sqrt (a ^ 2 + 14 * a * b + b ^ 2))))
      / (10 * (a + b) + Real.sqrt (a ^ 2 + 14 * a * b + b ^ 2)) ^ 2) := by
  have hinner : 0 < a ^ 2 + 14 * a * b + b ^ 2 := by positivity
  have hq : 0 < Real.sqrt (a ^ 2 + 14 * a * b + b ^ 2) := Real.sqrt_pos.mpr hinner
  have hD : 0 < 10 * (a + b) + Real.sqrt (a ^ 2 + 14 * a * b + b ^ 2) := by
    nlinarith [Real.sqrt_nonneg (a ^ 2 + 14 * a * b + b ^ 2)]
  have hqq : Real.sqrt (a ^ 2 + 14 * a * b + b ^ 2) ^ 2
      = a ^ 2 + 14 * a * b + b ^ 2 := Real.sq_sqrt hinner.le
  have hE := ellipseAux_deriv_numerator_pos a b
    (Real.sqrt (a ^ 2 + 14 * a * b + b ^ 2)) ha hb hq hqq
  have heq : 1 +
      (6 * (a - b) * (10 * (a + b) + Real.sqrt (a ^ 2 + 14 * a * b + b ^ 2))
        - 3 * ((a - b) * (a - b)) * (10 + (2 * a + 14 * b)
          / (2 * Real.sqrt (a ^ 2 + 14 * a * b + b ^ 2))))
      / (10 * (a + b) + Real.sqrt (a ^ 2 + 14 * a * b + b ^ 2)) ^ 2
      = (Real.sqrt (a ^ 2 + 14 * a * b + b ^ 2)
          * (10 * (a + b) + Real.sqrt (a ^ 2 + 14 * a * b + b ^ 2)) ^ 2
        + 6 * (a - b)
          * (10 * (a + b) + Real.sqrt (a ^ 2 + 14 * a * b + b ^ 2))
          * Real.sqrt (a ^ 2 + 14 * a * b + b ^ 2)
        - 3 * ((a - b) * (a - b))
          * (10 * Real.sqrt (a ^ 2 + 14 * a * b + b ^ 2) + (a + 7 * b)))
        / (Real.sqrt (a ^ 2 + 14 * a * b + b ^ 2)
          * (10 * (a + b) + Real.sqrt (a ^ 2 + 14 * a * b + b ^ 2)) ^ 2) := by
    field_simp
    ring
  rw [heq]
  exact mul_pos Real.pi_pos (div_pos hE (by positivity))

/-- `ellipseAux b` is strictly monotone on the positive axis. -/
theorem ellipseAux_strictMonoOn (b : ℝ) (hb : 0 < b) :
    StrictMonoOn (ellipseAux b) (Set.Ioi 0) := by
  apply strictMonoOn_of_deriv_pos (convex_Ioi 0)
  · intro x hx
    exact (ellipseAux_hasDerivAt b hb x hx).differentiableAt.continuousAt.continuousWithinAt
  · intro x hx
    rw [interior_Ioi] at hx
    rw [(ellipseAux_hasDerivAt b hb x hx).deriv]
    exact ellipseAux_deriv_pos x b hx hb

/-- Ramanujan's approximation is strictly increasing in its first axis. -/
theorem ellipseCircumference_strictMono_left (b : ℝ) (hb : 0 < b)
    {a1 a2 : ℝ} (h1 : 0 < a1) (h12 : a1 < a2) :
    ellipseCircumference a1 b < ellipseCircumference a2 b := by
  have h2 : 0 < a2 := lt_trans h1 h12
  rw [ellipseCircumference_eq_aux a1 b h1 hb,
    ellipseCircumference_eq_aux a2 b h2 hb]
  exact ellipseAux_strictMonoOn b hb (Set.mem_Ioi.mpr h1)
    (Set.mem_Ioi.mpr h2) h12

theorem correction_factor_pos (region : MeasurementRegion) :
    0 < CORRECTION_FACTORS region := by
  cases region <;> norm_num [CORRECTION_FACTORS]

/-- C4 counterexample: at the waist, frontal widths 30 cm and 30.01 cm with
sagittal 30 cm produce the *same* returned `circumference_cm` (97.1 cm), so
the returned value is not strictly increasing in `frontal_cm` — the 0.1 cm
rounding collapses nearby inputs. -/
theorem calculateCircumference_rounding_tie :
    (30 : ℝ) < 30.01 ∧
    (calculateCircumference .waist ⟨30, 30⟩).circumference_cm
      = (calculateCircumference .waist ⟨30.01, 30⟩).circumference_cm := by
  refine ⟨by norm_num, ?_⟩
  have hpi1 := Real.pi_gt_d6
  have hpi2 := Real.pi_lt_d6
  have hcorr : CORRECTION_FACTORS MeasurementRegion.waist = (1.03 : ℝ) := rfl
  have hc1 : (calculateCircumference .waist ⟨30, 30⟩).circumference_cm
      = round1R (ellipseCircumference ((30 : ℝ) / 2) ((30 : ℝ) / 2)
        * CORRECTION_FACTORS .waist) := rfl
  have hc2 : (calculateCircumference .waist ⟨30.01, 30⟩).circumference_cm
      = round1R (ellipseCircumference ((30.01 : ℝ) / 2) ((30 : ℝ) / 2)
        * CORRECTION_FACTORS .waist) := rfl
  have he1 : ellipseCircumference ((30 : ℝ) / 2) ((30 : ℝ) / 2)
      = Real.pi * 30 := by
    simp only [ellipseCircumference]
    norm_num
  have hval : (((30.01 : ℝ) / 2 - 30 / 2) * ((30.01 : ℝ) / 2 - 30 / 2))
      / (((30.01 : ℝ) / 2 + 30 / 2) * ((30.01 : ℝ) / 2 + 30 / 2))
      = 1 / 36012001 := by norm_num
  have he2 : ellipseCircumference ((30.01 : ℝ) / 2) ((30 : ℝ) / 2)
      = Real.pi * ((30.01 : ℝ) / 2 + 30 / 2)
        * (1 + 3 * ((1 : ℝ) / 36012001)
          / (10 + Real.sqrt (4 - 3 * ((1 : ℝ) / 36012001)))) := by
    simp only [ellipseCircumference]
    rw [hval]
  have hsq0 : (0 : ℝ) ≤ Real.sqrt (4 - 3 * ((1 : ℝ) / 36012001)) :=
    Real.sqrt_nonneg _
  have ht0 : (0 : ℝ) ≤ 3 * ((1 : ℝ) / 36012001)
      / (10 + Real.sqrt (4 - 3 * ((1 : ℝ) / 36012001))) :=
    div_nonneg (by norm_num) (by linarith)
  have ht1 : 3 * ((1 : ℝ) / 36012001)
      / (10 + Real.sqrt (4 - 3 * ((1 : ℝ) / 36012001)))
      ≤ 3 * ((1 : ℝ) / 36012001) / 10 := by
    apply div_le_div_of_nonneg_left (by norm_num) (by norm_num)
    linarith
  have hfloor1 : ⌊(Real.pi * 30 * (1.03 : ℝ)) * 10 + 1 / 2⌋ = (971 : ℤ) := by
    rw [Int.floor_eq_iff]
    constructor
    · push_cast
      nlinarith
    · push_cast
      nlinarith
  have hfloor2 : ⌊(Real.pi * ((30.01 : ℝ) / 2 + 30 / 2)
      * (1 + 3 * ((1 : ℝ) / 36012001)
        / (10 + Real.sqrt (4 - 3 * ((1 : ℝ) / 36012001)))) * (1.03 : ℝ))
      * 10 + 1 / 2⌋ = (971 : ℤ) := by
    set t := 3 * ((1 : ℝ) / 36012001)
      / (10 + Real.sqrt (4 - 3 * ((1 : ℝ) / 36012001))) with htdef
    have hprod : 0 ≤ Real.pi * ((30.01 : ℝ) / 2 + 30 / 2) * t * (1.03 : ℝ) * 10 := by
      have : (0 : ℝ) < Real.pi * ((30.01 : ℝ) / 2 + 30 / 2) :=
        mul_pos Real.pi_pos (by norm_num)
      nlinarith
    have hub : Real.pi * ((30.01 : ℝ) / 2 + 30 / 2) * t * (1.03 : ℝ) * 10
        ≤ 3.141593 * 30.005 * (3 * ((1 : ℝ) / 36012001) / 10) * 1.03 * 10 := by
      have h305 : ((30.01 : ℝ) / 2 + 30 / 2) = 30.005 := by norm_num
      rw [h305]
      have hpim : Real.pi * (30.005 : ℝ) ≤ 3.141593 * 30.005 := by nlinarith
      nlinarith [mul_pos Real.pi_pos (show (0 : ℝ) < 30.005 by norm_num)]
    rw [Int.floor_eq_iff]
    constructor
    · push_cast
      nlinarith [mul_pos Real.pi_pos (show (0 : ℝ) < 30.005 by norm_num)]
    · push_cast
      nlinarith
  rw [hc1, hc2, hcorr, he1, he2, round1R, round1R, hfloor1, hfloor2]

/-- C4 (amended): the pre-rounding circumference — the corrected Ramanujan
perimeter — is strictly increasing in `frontal_cm` (sagittal fixed) and in
`sagittal_cm` (frontal fixed) over positive widths, and the returned
`circumference_cm` is therefore non-decreasing in each; strictness of the
returned value fails only because of the 0.1 cm rounding. -/
theorem calculateCircumference_monotone (region : MeasurementRegion)
    (f1 f2 s1 s2 : ℝ) (hf1 : 0 < f1) (hff : f1 < f2) (hs1 : 0 < s1)
    (hss : s1 < s2) :
    ellipseCircumference (f1 / 2) (s1 / 2) * CORRECTION_FACTORS region
      < ellipseCircumference (f2 / 2) (s1 / 2) * CORRECTION_FACTORS region ∧
    ellipseCircumference (f1 / 2) (s1 / 2) * CORRECTION_FACTORS region
      < ellipseCircumference (f1 / 2) (s2 / 2) * CORRECTION_FACTORS region ∧
    (calculateCircumference region ⟨f1, s1⟩).circumference_cm
      ≤ (calculateCircumference region ⟨f2, s1⟩).circumference_cm ∧
    (calculateCircumference region ⟨f1, s1⟩).circumference_cm
      ≤ (calculateCircumference region ⟨f1, s2⟩).circumference_cm := by
  have hcorr := correction_factor_pos region
  have hfront : ellipseCircumference (f1 / 2) (s1 / 2)
      < ellipseCircumference (f2 / 2) (s1 / 2) :=
    ellipseCircumference_strictMono_left (s1 / 2) (by linarith)
      (by linarith) (by linarith)
  have hsag : ellipseCircumference (f1 / 2) (s1 / 2)
      < ellipseCircumference (f1 / 2) (s2 / 2) := by
    rw [ellipseCircumference_comm (f1 / 2) (s1 / 2),
      ellipseCircumference_comm (f1 / 2) (s2 / 2)]
    exact ellipseCircumference_strictMono_left (f1 / 2) (by linarith)
      (by linarith) (by linarith)
  refine ⟨mul_lt_mul_of_pos_right hfront hcorr,
    mul_lt_mul_of_pos_right hsag hcorr, ?_, ?_⟩
  · exact round1R_mono
      (le_of_lt (mul_lt_mul_of_pos_right hfront hcorr))
  · exact round1R_mono
      (le_of_lt (mul_lt_mul_of_pos_right hsag hcorr))

/-- C4 witness: monotonicity at waist widths 20 → 30 (frontal) and
10 → 12 (sagittal). -/
theorem calculateCircumference_monotone_witness :
    (0 : ℝ) < 20 ∧ (20 : ℝ) < 30 ∧ (0 : ℝ) < 10 ∧ (10 : ℝ) < 12 ∧
    ((calculateCircumference .waist ⟨20, 10⟩).circumference_cm
      ≤ (calculateCircumference .waist ⟨30, 10⟩).circumference_cm ∧
     (calculateCircumference .waist ⟨20, 10⟩).circumference_cm
      ≤ (calculateCircumference .waist ⟨20, 12⟩).circumference_cm) :=
  ⟨by norm_num, by norm_num, by norm_num, by norm_num,
   (calculateCircumference_monotone .waist 20 30 10 12 (by norm_num)
      (by norm_num) (by norm_num) (by norm_num)).2.2⟩

end NateFit
